import Mathlib

/-
Verification development for the social-platform abstraction layer:
the unified data model, the shared error handler of the SocialPlatform
base class, the three platform adapters (Instagram, LinkedIn, Twitter)
and the multi-platform post dispatcher.

Vendor HTTP calls are modelled by oracle records whose fields are the
endpoints an adapter may hit; each adapter operation is a function from
an explicit adapter state and such an oracle to a result together with
the successor state.  JavaScript truthiness of optional strings and
numbers is modelled explicitly (absent, the empty string and 0 are
falsy).  Timestamps are naturals counting milliseconds; `Date.now()` is
passed in as a `now` parameter.
-/

/-- The Platform enum of src/types/index.ts. -/
inductive Platform where
  | twitter
  | instagram
  | linkedin
deriving DecidableEq

/-- The runtime string value of a Platform enum member. -/
def Platform.value : Platform → String
  | .twitter => "twitter"
  | .instagram => "instagram"
  | .linkedin => "linkedin"

/-- The EngagementAction enum of src/types/index.ts. -/
inductive EngagementAction where
  | like
  | comment
  | share
  | retweet
  | reply
deriving DecidableEq

/-- The runtime string value of an EngagementAction enum member. -/
def EngagementAction.value : EngagementAction → String
  | .like => "like"
  | .comment => "comment"
  | .share => "share"
  | .retweet => "retweet"
  | .reply => "reply"

/-- JavaScript truthiness of an optional string: undefined and "" are falsy. -/
def strTruthy : Option String → Bool
  | none => false
  | some s => !(s == "")

/-- JavaScript truthiness of an optional number: undefined and 0 are falsy. -/
def natTruthy : Option Nat → Bool
  | none => false
  | some n => !(n == 0)

/-- JavaScript `a || b` for an optional string with a string default. -/
def orElseStr (a : Option String) (b : String) : String :=
  if strTruthy a then a.getD "" else b

/-- JavaScript `a || b` for an optional number with a numeric default. -/
def natOr (a : Option Nat) (b : Nat) : Nat :=
  if natTruthy a then a.getD 0 else b

/-- JavaScript `xs?.[0]` on an optional array. -/
def firstElem : Option (List String) → Option String
  | some (x :: _) => some x
  | _ => none

/-- JavaScript template interpolation of a possibly undefined string. -/
def jsTemplate : Option String → String
  | some s => s
  | none => "undefined"

/-- Containment of one character list inside another as a contiguous run. -/
def listInfix (pat : List Char) : List Char → Bool
  | [] => pat.isEmpty
  | c :: t => pat.isPrefixOf (c :: t) || listInfix pat t

/-- Substring containment, used to state that an error message mentions a word. -/
def containsSubstr (s pat : String) : Bool :=
  listInfix pat.data s.data

/-- The User interface of src/types/index.ts. -/
structure User where
  id : String
  username : String
  displayName : String
  avatarUrl : Option String
  bio : Option String
  followersCount : Option Nat
  followingCount : Option Nat
  verified : Option Bool
deriving DecidableEq

/-- The Post interface of src/types/index.ts.  The optional isRetweet and
originalPost fields of the TypeScript interface are never produced by any
adapter and are omitted.  Timestamps are milliseconds. -/
structure Post where
  id : String
  platform : Platform
  author : User
  content : String
  timestamp : Nat
  mediaUrls : Option (List String)
  likesCount : Option Nat
  commentsCount : Option Nat
  sharesCount : Option Nat
  url : Option String
deriving DecidableEq

/-- The PlatformConfig interface of src/types/index.ts (credential bundle). -/
structure PlatformConfig where
  apiKey : Option String
  apiSecret : Option String
  accessToken : Option String
  accessSecret : Option String
  bearerToken : Option String
  clientId : Option String
  clientSecret : Option String
  userId : Option String
  appId : Option String
  redirectUri : Option String
deriving DecidableEq

/-- The PostOptions interface of src/types/index.ts. -/
structure PostOptions where
  text : Option String
  caption : Option String
  mediaPath : Option String
  mediaUrls : Option (List String)
  linkUrl : Option String
  linkTitle : Option String
deriving DecidableEq

/-- The FeedOptions interface of src/types/index.ts. -/
structure FeedOptions where
  limit : Option Nat
  maxResults : Option Nat
  sinceId : Option String
  beforeId : Option String
deriving DecidableEq

/-- The EngagementOptions interface of src/types/index.ts. -/
structure EngagementOptions where
  postId : String
  action : EngagementAction
  commentText : Option String
deriving DecidableEq

/-- The SearchOptions interface of src/types/index.ts; time bounds are
milliseconds. -/
structure SearchOptions where
  query : String
  limit : Option Nat
  startTime : Option Nat
  endTime : Option Nat
deriving DecidableEq

/-- The PlatformError interface of src/types/index.ts: an Error carrying the
platform tag, an optional HTTP status code and an optional rate-limit reset
time (milliseconds). -/
structure PlatformError where
  message : String
  platform : Platform
  statusCode : Option Nat
  rateLimitReset : Option Nat
deriving DecidableEq

/-- The shape of a raw vendor error as inspected by SocialPlatform.handleError:
`code` and `statusCode` are the two places a numeric HTTP status may sit,
`message` is the raw message, `dataTitle` is `error.data?.title`, `dataDetail`
is `error.data?.detail`, `dataFirstErrorMessage` is
`error.data?.errors?.[0]?.message`, and `rateLimitReset` is
`error.rateLimit?.reset` in seconds. -/
structure RawError where
  code : Option Nat
  statusCode : Option Nat
  message : Option String
  dataTitle : Option String
  dataDetail : Option String
  dataFirstErrorMessage : Option String
  rateLimitReset : Option Nat
deriving DecidableEq

/-- A thrown PlatformError seen again as a raw error by a surrounding catch
block: it has no `code`, no `data` payload and no `rateLimit` field, only
`statusCode` and `message`. -/
def RawError.ofPlatformError (e : PlatformError) : RawError :=
  { code := none
    statusCode := e.statusCode
    message := some e.message
    dataTitle := none
    dataDetail := none
    dataFirstErrorMessage := none
    rateLimitReset := none }

/-- SocialPlatform.createError: build a PlatformError from a message, an
optional status code and an optional rate-limit reset time. -/
def SocialPlatform.createError (p : Platform) (message : String)
    (statusCode : Option Nat) (rateLimitReset : Option Nat) : PlatformError :=
  { message := message
    platform := p
    statusCode := statusCode
    rateLimitReset := rateLimitReset }

/-- The remediation text appended by the 403 branch of handleError. -/
def permissionFixSteps : String :=
  "Your Twitter app may not have write permissions. To fix:\n" ++
  "1. Go to https://developer.twitter.com/en/portal/projects\n" ++
  "2. Select your app → \"User authentication settings\"\n" ++
  "3. Set App permissions to \"Read and write\"\n" ++
  "4. Regenerate your Access Token and Secret after changing permissions"

/-- The credits-specific message of the 402 branch of handleError. -/
def creditsDepletedMessage : String :=
  "Twitter API credits depleted. Your account has no remaining credits for this month. " ++
  "Visit developer.twitter.com to purchase more credits or upgrade your API tier, " ++
  "or wait for your monthly credits to reset."

/-- The generic message of the 402 branch of handleError. -/
def paymentRequiredMessage (p : Platform) : String :=
  "Payment required for " ++ p.value ++ ". Please check your API subscription status."

/-- SocialPlatform.handleError: classify a raw vendor error into the
PlatformError it throws.  `now` is `Date.now()` in milliseconds.  The 429
message renders the reset time as its numeric millisecond value where the
source calls `toLocaleTimeString()`. -/
def SocialPlatform.handleError (p : Platform) (now : Nat) (e : RawError) : PlatformError :=
  if e.code = some 429 ∨ e.statusCode = some 429 then
    let rlReset : Nat :=
      if natTruthy e.rateLimitReset then e.rateLimitReset.getD 0 * 1000
      else now + 15 * 60 * 1000
    SocialPlatform.createError p
      ("Rate limit exceeded for " ++ p.value ++ ". Try again after " ++ toString rlReset)
      (some 429) (some rlReset)
  else if e.code = some 401 ∨ e.statusCode = some 401 then
    SocialPlatform.createError p
      ("Authentication failed for " ++ p.value ++ ". Please check your credentials.")
      (some 401) none
  else if e.code = some 403 ∨ e.statusCode = some 403 then
    let errorDetail := orElseStr e.dataDetail (orElseStr e.dataFirstErrorMessage "")
    SocialPlatform.createError p
      ("Permission denied for " ++ p.value ++ ". " ++ errorDetail ++ "\n" ++ permissionFixSteps)
      (some 403) none
  else if e.code = some 402 ∨ e.statusCode = some 402 then
    if e.dataTitle = some "CreditsDepleted" then
      SocialPlatform.createError p creditsDepletedMessage (some 402) none
    else
      SocialPlatform.createError p (paymentRequiredMessage p) (some 402) none
  else
    SocialPlatform.createError p
      (orElseStr e.message ("An error occurred with " ++ p.value))
      (if natTruthy e.statusCode then e.statusCode else e.code)
      none

/-- The closed error taxonomy of the specification. -/
inductive ErrorKind where
  | authenticationFailed
  | permissionDenied
  | rateLimited
  | quotaExhausted
  | unsupportedOperation
  | validationFailed
  | unknown
deriving DecidableEq

/-- The taxonomy kind of the classification branch of
SocialPlatform.handleError that fires on a raw error: the branch conditions
are exactly those of handleError, and the kind names are the specification
names for those branches (429 rate limit, 401 authentication, 403 permission,
402 quota, final passthrough unknown). -/
def branchKind (e : RawError) : ErrorKind :=
  if e.code = some 429 ∨ e.statusCode = some 429 then .rateLimited
  else if e.code = some 401 ∨ e.statusCode = some 401 then .authenticationFailed
  else if e.code = some 403 ∨ e.statusCode = some 403 then .permissionDenied
  else if e.code = some 402 ∨ e.statusCode = some 402 then .quotaExhausted
  else .unknown

/-- Models `throw this.createError(msg)` inside a try block whose catch calls
`this.handleError(error)`: the freshly created PlatformError is immediately
re-classified by handleError. -/
def SocialPlatform.throwAndHandle (p : Platform) (now : Nat) (msg : String) : PlatformError :=
  SocialPlatform.handleError p now
    (RawError.ofPlatformError (SocialPlatform.createError p msg none none))

/-- A raw error carries the HTTP status s and no other status: one of its two
status slots is s and each slot is either absent or s. -/
def carriesOnly (e : RawError) (s : Nat) : Prop :=
  (e.code = some s ∨ e.statusCode = some s) ∧
  (e.code = none ∨ e.code = some s) ∧
  (e.statusCode = none ∨ e.statusCode = some s)

instance (e : RawError) (s : Nat) : Decidable (carriesOnly e s) := by
  unfold carriesOnly
  infer_instance

/-- The status-to-kind table stated by the specification for the four
classified HTTP statuses. -/
def specStatusKind (s : Nat) : ErrorKind :=
  if s = 401 then .authenticationFailed
  else if s = 402 then .quotaExhausted
  else if s = 403 then .permissionDenied
  else if s = 429 then .rateLimited
  else .unknown

/-- A constructed axios client: the base URL it was created with and the
credential it captured at creation time. -/
structure AxiosClient where
  baseURL : String
  token : String
deriving DecidableEq

/-- The InstagramMedia shape returned by the Instagram Graph API.  The
timestamp string is modelled as milliseconds. -/
structure InstagramMedia where
  id : String
  caption : Option String
  media_type : String
  media_url : Option String
  permalink : String
  timestamp : Nat
  username : String
  like_count : Option Nat
  comments_count : Option Nat
deriving DecidableEq

/-- The InstagramUser shape returned by the Instagram Graph API. -/
structure InstagramUser where
  id : String
  username : String
  name : Option String
  profile_picture_url : Option String
  biography : Option String
  followers_count : Option Nat
  follows_count : Option Nat
deriving DecidableEq

/-- Oracle for the Instagram Graph API endpoints used by InstagramPlatform:
`getUser uid` is GET /{uid}, `getUserMedia uid limit` is GET /{uid}/media,
`createMediaContainer uid imageUrl caption` is POST /{uid}/media returning a
container id, `publishMedia uid creationId` is POST /{uid}/media_publish
returning a media id, `getMedia mid` is GET /{mid}, and
`postComment postId message` is POST /{postId}/comments. -/
structure InstagramApi where
  getUser : String → Except RawError InstagramUser
  getUserMedia : String → Nat → Except RawError (List InstagramMedia)
  createMediaContainer : String → String → String → Except RawError String
  publishMedia : String → String → Except RawError String
  getMedia : String → Except RawError InstagramMedia
  postComment : String → String → Except RawError Unit

/-- Mutable state of an InstagramPlatform instance: the config received at
construction and the axios client (null until authenticate runs). -/
structure InstagramState where
  config : PlatformConfig
  client : Option AxiosClient
deriving DecidableEq

/-- The base URL of the Instagram Graph API client. -/
def instagramBaseUrl : String := "https://graph.instagram.com"

/-- InstagramPlatform.mapInstagramUserToUser. -/
def InstagramPlatform.mapInstagramUserToUser (igUser : InstagramUser) : User :=
  { id := igUser.id
    username := igUser.username
    displayName := orElseStr igUser.name igUser.username
    avatarUrl := igUser.profile_picture_url
    bio := igUser.biography
    followersCount := igUser.followers_count
    followingCount := igUser.follows_count
    verified := none }

/-- InstagramPlatform.mapInstagramMediaToPost. -/
def InstagramPlatform.mapInstagramMediaToPost (media : InstagramMedia) (author : User) : Post :=
  { id := media.id
    platform := .instagram
    author := author
    content := orElseStr media.caption ""
    timestamp := media.timestamp
    mediaUrls := if strTruthy media.media_url then some [media.media_url.getD ""] else none
    likesCount := media.like_count
    commentsCount := media.comments_count
    sharesCount := none
    url := some media.permalink }

/-- InstagramPlatform.getMe: guard on the client, GET the configured user id,
map the result; raw failures are classified by handleError. -/
def InstagramPlatform.getMe (st : InstagramState) (api : InstagramApi) (now : Nat) :
    Except PlatformError User × InstagramState :=
  match st.client with
  | none => (.error (SocialPlatform.throwAndHandle .instagram now "Not authenticated"), st)
  | some _ =>
    match api.getUser (jsTemplate st.config.userId) with
    | .error e => (.error (SocialPlatform.handleError .instagram now e), st)
    | .ok igUser => (.ok (InstagramPlatform.mapInstagramUserToUser igUser), st)

/-- InstagramPlatform.authenticate: check the credential fields, install a
fresh axios client capturing the access token, then verify by calling getMe;
a failure from getMe is a PlatformError that the surrounding catch feeds back
through handleError.  The client stays installed even when verification
fails, as in the source. -/
def InstagramPlatform.authenticate (st : InstagramState) (api : InstagramApi) (now : Nat) :
    Except PlatformError Unit × InstagramState :=
  if !(strTruthy st.config.accessToken) || !(strTruthy st.config.userId) then
    (.error (SocialPlatform.throwAndHandle .instagram now
      "Missing Instagram access token or user ID"), st)
  else
    let st1 : InstagramState :=
      { st with client := some { baseURL := instagramBaseUrl
                                 token := st.config.accessToken.getD "" } }
    match InstagramPlatform.getMe st1 api now with
    | (.ok _, _) => (.ok (), st1)
    | (.error pe, _) =>
      (.error (SocialPlatform.handleError .instagram now (RawError.ofPlatformError pe)), st1)

/-- InstagramPlatform.getFeed: guard on the client, GET the media list, then
getMe for the author, then map every media item. -/
def InstagramPlatform.getFeed (st : InstagramState) (api : InstagramApi) (now : Nat)
    (options : FeedOptions) : Except PlatformError (List Post) × InstagramState :=
  match st.client with
  | none => (.error (SocialPlatform.throwAndHandle .instagram now "Not authenticated"), st)
  | some _ =>
    match api.getUserMedia (jsTemplate st.config.userId) (natOr options.limit 20) with
    | .error e => (.error (SocialPlatform.handleError .instagram now e), st)
    | .ok mediaList =>
      match InstagramPlatform.getMe st api now with
      | (.error pe, _) =>
        (.error (SocialPlatform.handleError .instagram now (RawError.ofPlatformError pe)), st)
      | (.ok me, _) =>
        (.ok (mediaList.map fun m => InstagramPlatform.mapInstagramMediaToPost m me), st)

/-- InstagramPlatform.post: guard on the client, require a media URL or path,
create the media container with `caption || text || ""`, publish it, fetch
the published media, then getMe and map. -/
def InstagramPlatform.post (st : InstagramState) (api : InstagramApi) (now : Nat)
    (options : PostOptions) : Except PlatformError Post × InstagramState :=
  match st.client with
  | none => (.error (SocialPlatform.throwAndHandle .instagram now "Not authenticated"), st)
  | some _ =>
    if !(strTruthy options.mediaPath) && !(strTruthy (firstElem options.mediaUrls)) then
      (.error (SocialPlatform.throwAndHandle .instagram now
        "Instagram requires an image or video URL to post"), st)
    else
      let mediaUrl := orElseStr (firstElem options.mediaUrls) (jsTemplate options.mediaPath)
      if mediaUrl == "" then
        (.error (SocialPlatform.throwAndHandle .instagram now "Media URL is required"), st)
      else
        match api.createMediaContainer (jsTemplate st.config.userId) mediaUrl
            (orElseStr options.caption (orElseStr options.text "")) with
        | .error e => (.error (SocialPlatform.handleError .instagram now e), st)
        | .ok containerId =>
          match api.publishMedia (jsTemplate st.config.userId) containerId with
          | .error e => (.error (SocialPlatform.handleError .instagram now e), st)
          | .ok mediaId =>
            match api.getMedia mediaId with
            | .error e => (.error (SocialPlatform.handleError .instagram now e), st)
            | .ok media =>
              match InstagramPlatform.getMe st api now with
              | (.error pe, _) =>
                (.error (SocialPlatform.handleError .instagram now
                  (RawError.ofPlatformError pe)), st)
              | (.ok me, _) =>
                (.ok (InstagramPlatform.mapInstagramMediaToPost media me), st)

/-- InstagramPlatform.engage: comment and reply require comment text and POST
a comment; like and share are not offered by the Graph API and fail with a
message saying so; any other action hits the default unsupported branch. -/
def InstagramPlatform.engage (st : InstagramState) (api : InstagramApi) (now : Nat)
    (options : EngagementOptions) : Except PlatformError Unit × InstagramState :=
  match st.client with
  | none => (.error (SocialPlatform.throwAndHandle .instagram now "Not authenticated"), st)
  | some _ =>
    match options.action with
    | .comment | .reply =>
      if !(strTruthy options.commentText) then
        (.error (SocialPlatform.throwAndHandle .instagram now "Comment text is required"), st)
      else
        match api.postComment options.postId (options.commentText.getD "") with
        | .error e => (.error (SocialPlatform.handleError .instagram now e), st)
        | .ok _ => (.ok (), st)
    | .like =>
      (.error (SocialPlatform.throwAndHandle .instagram now
        "Instagram API does not support liking posts programmatically"), st)
    | .share =>
      (.error (SocialPlatform.throwAndHandle .instagram now
        "Instagram API does not support sharing posts programmatically"), st)
    | .retweet =>
      (.error (SocialPlatform.throwAndHandle .instagram now
        ("Unsupported action: " ++ EngagementAction.retweet.value)), st)

/-- InstagramPlatform.search: post search is not offered by the Graph API and
always fails once the client guard passes. -/
def InstagramPlatform.search (st : InstagramState) (api : InstagramApi) (now : Nat)
    (options : SearchOptions) : Except PlatformError (List Post) × InstagramState :=
  match st.client with
  | none => (.error (SocialPlatform.throwAndHandle .instagram now "Not authenticated"), st)
  | some _ =>
    (.error (SocialPlatform.throwAndHandle .instagram now
      ("Instagram API does not support post search. " ++
       "Only hashtag search is available with additional permissions.")), st)

/-- The nested `text` object of a LinkedIn UGC post. -/
structure LIText where
  text : String
deriving DecidableEq

/-- A thumbnail of a LinkedIn content entity. -/
structure LIThumbnail where
  resolvedUrl : String
deriving DecidableEq

/-- A content entity of a LinkedIn UGC post. -/
structure LIContentEntity where
  entityLocation : Option String
  thumbnails : Option (List LIThumbnail)
deriving DecidableEq

/-- The nested `content` object of a LinkedIn UGC post. -/
structure LIContent where
  contentEntities : Option (List LIContentEntity)
deriving DecidableEq

/-- The LinkedInPost shape returned by the LinkedIn v2 API; `createdTime` is
`created.time` in milliseconds. -/
structure LinkedInPost where
  id : String
  author : String
  createdTime : Nat
  text : Option LIText
  content : Option LIContent
  commentary : Option String
deriving DecidableEq

/-- The LinkedInProfile shape returned by GET /me;
`profilePictureDisplayImage` is `profilePicture?.displayImage`. -/
structure LinkedInProfile where
  id : String
  localizedFirstName : String
  localizedLastName : String
  profilePictureDisplayImage : Option String
  headline : Option String
deriving DecidableEq

/-- The request body POSTed to /ugcPosts, flattened: `author`,
`shareCommentary.text`, `shareMediaCategory`, the optional article media
(originalUrl and title) and the optional `originalShare` used by the share
engagement. -/
structure UgcShareReq where
  author : String
  commentaryText : String
  shareMediaCategory : String
  mediaOriginalUrl : Option String
  mediaTitleText : Option String
  originalShare : Option String
deriving DecidableEq

/-- The request body POSTed to /socialActions: actor, object and either a
verb (LIKE) or a message text (comment and reply). -/
structure SocialActionReq where
  actor : String
  object : String
  verb : Option String
  messageText : Option String
deriving DecidableEq

/-- Oracle for the LinkedIn v2 API endpoints used by LinkedInPlatform:
`me` is GET /me, `ugcPostsByAuthor profileId count` is GET /ugcPosts with
q=authors, `createUgcPost req` is POST /ugcPosts returning the new post id,
and `socialAction req` is POST /socialActions. -/
structure LinkedInApi where
  me : Except RawError LinkedInProfile
  ugcPostsByAuthor : String → Nat → Except RawError (List LinkedInPost)
  createUgcPost : UgcShareReq → Except RawError String
  socialAction : SocialActionReq → Except RawError Unit

/-- Mutable state of a LinkedInPlatform instance: the config received at
construction, the axios client and the profile id (both null until
authenticate runs). -/
structure LinkedInState where
  config : PlatformConfig
  client : Option AxiosClient
  profileId : Option String
deriving DecidableEq

/-- The base URL of the LinkedIn API client. -/
def linkedinBaseUrl : String := "https://api.linkedin.com/v2"

/-- LinkedInPlatform.mapLinkedInProfileToUser: LinkedIn has no usernames, so
the id doubles as the username. -/
def LinkedInPlatform.mapLinkedInProfileToUser (profile : LinkedInProfile) : User :=
  { id := profile.id
    username := profile.id
    displayName := profile.localizedFirstName ++ " " ++ profile.localizedLastName
    avatarUrl := profile.profilePictureDisplayImage
    bio := profile.headline
    followersCount := none
    followingCount := none
    verified := none }

/-- The media URLs extracted from the content entities of a LinkedIn post:
`entityLocation` when present, else the first thumbnail's resolved URL. -/
def liMediaUrls (entities : List LIContentEntity) : List String :=
  match entities with
  | [] => []
  | entity :: rest =>
    let tail := liMediaUrls rest
    if strTruthy entity.entityLocation then entity.entityLocation.getD "" :: tail
    else
      match entity.thumbnails with
      | some (t :: _) => if t.resolvedUrl == "" then tail else t.resolvedUrl :: tail
      | _ => tail

/-- LinkedInPlatform.mapLinkedInPostToPost. -/
def LinkedInPlatform.mapLinkedInPostToPost (post : LinkedInPost) (author : User) : Post :=
  let text := orElseStr (post.text.map LIText.text) (orElseStr post.commentary "")
  let mediaUrls :=
    match post.content with
    | some c =>
      match c.contentEntities with
      | some entities => liMediaUrls entities
      | none => []
    | none => []
  { id := post.id
    platform := .linkedin
    author := author
    content := text
    timestamp := post.createdTime
    mediaUrls := if 0 < mediaUrls.length then some mediaUrls else none
    likesCount := none
    commentsCount := none
    sharesCount := none
    url := some ("https://www.linkedin.com/feed/update/" ++ post.id ++ "/") }

/-- LinkedInPlatform.getMe: guard on the client, GET /me, map the profile. -/
def LinkedInPlatform.getMe (st : LinkedInState) (api : LinkedInApi) (now : Nat) :
    Except PlatformError User × LinkedInState :=
  match st.client with
  | none => (.error (SocialPlatform.throwAndHandle .linkedin now "Not authenticated"), st)
  | some _ =>
    match api.me with
    | .error e => (.error (SocialPlatform.handleError .linkedin now e), st)
    | .ok profile => (.ok (LinkedInPlatform.mapLinkedInProfileToUser profile), st)

/-- LinkedInPlatform.authenticate: require the access token, install a fresh
axios client capturing it, verify via getMe and store the profile id.  The
client stays installed even when verification fails, as in the source. -/
def LinkedInPlatform.authenticate (st : LinkedInState) (api : LinkedInApi) (now : Nat) :
    Except PlatformError Unit × LinkedInState :=
  if !(strTruthy st.config.accessToken) then
    (.error (SocialPlatform.throwAndHandle .linkedin now "Missing LinkedIn access token"), st)
  else
    let st1 : LinkedInState :=
      { st with client := some { baseURL := linkedinBaseUrl
                                 token := st.config.accessToken.getD "" } }
    match LinkedInPlatform.getMe st1 api now with
    | (.ok me, _) => (.ok (), { st1 with profileId := some me.id })
    | (.error pe, _) =>
      (.error (SocialPlatform.handleError .linkedin now (RawError.ofPlatformError pe)), st1)

/-- LinkedInPlatform.getFeed: guard on client and profile id, GET the user's
UGC posts, then getMe for the author, then map every post. -/
def LinkedInPlatform.getFeed (st : LinkedInState) (api : LinkedInApi) (now : Nat)
    (options : FeedOptions) : Except PlatformError (List Post) × LinkedInState :=
  if st.client.isNone || !(strTruthy st.profileId) then
    (.error (SocialPlatform.throwAndHandle .linkedin now "Not authenticated"), st)
  else
    match api.ugcPostsByAuthor (jsTemplate st.profileId) (natOr options.limit 20) with
    | .error e => (.error (SocialPlatform.handleError .linkedin now e), st)
    | .ok elements =>
      match LinkedInPlatform.getMe st api now with
      | (.error pe, _) =>
        (.error (SocialPlatform.handleError .linkedin now (RawError.ofPlatformError pe)), st)
      | (.ok me, _) =>
        (.ok (elements.map fun p => LinkedInPlatform.mapLinkedInPostToPost p me), st)

/-- LinkedInPlatform.post: guard on client and profile id, require text or a
link URL, POST the UGC share, then build the returned Post locally (LinkedIn
does not return the full post), stamping it with the current time after a
getMe for the author. -/
def LinkedInPlatform.post (st : LinkedInState) (api : LinkedInApi) (now : Nat)
    (options : PostOptions) : Except PlatformError Post × LinkedInState :=
  if st.client.isNone || !(strTruthy st.profileId) then
    (.error (SocialPlatform.throwAndHandle .linkedin now "Not authenticated"), st)
  else
    if !(strTruthy options.text) && !(strTruthy options.linkUrl) then
      (.error (SocialPlatform.throwAndHandle .linkedin now "Post text or link URL is required"), st)
    else
      let req : UgcShareReq :=
        { author := "urn:li:person:" ++ jsTemplate st.profileId
          commentaryText := orElseStr options.text ""
          shareMediaCategory := if strTruthy options.linkUrl then "ARTICLE" else "NONE"
          mediaOriginalUrl := if strTruthy options.linkUrl then options.linkUrl else none
          mediaTitleText :=
            if strTruthy options.linkUrl then
              some (orElseStr options.linkTitle (jsTemplate options.linkUrl))
            else none
          originalShare := none }
      match api.createUgcPost req with
      | .error e => (.error (SocialPlatform.handleError .linkedin now e), st)
      | .ok newId =>
        match LinkedInPlatform.getMe st api now with
        | (.error pe, _) =>
          (.error (SocialPlatform.handleError .linkedin now (RawError.ofPlatformError pe)), st)
        | (.ok me, _) =>
          (.ok { id := newId
                 platform := .linkedin
                 author := me
                 content := orElseStr options.text ""
                 timestamp := now
                 mediaUrls := none
                 likesCount := none
                 commentsCount := none
                 sharesCount := none
                 url := some ("https://www.linkedin.com/feed/update/" ++ newId ++ "/") }, st)

/-- LinkedInPlatform.engage: like, comment and reply POST to /socialActions
keyed by verb or message; share creates a new UGC post referencing the
original; any other action hits the default unsupported branch. -/
def LinkedInPlatform.engage (st : LinkedInState) (api : LinkedInApi) (now : Nat)
    (options : EngagementOptions) : Except PlatformError Unit × LinkedInState :=
  if st.client.isNone || !(strTruthy st.profileId) then
    (.error (SocialPlatform.throwAndHandle .linkedin now "Not authenticated"), st)
  else
    match options.action with
    | .like =>
      match api.socialAction
          { actor := "urn:li:person:" ++ jsTemplate st.profileId
            object := options.postId
            verb := some "LIKE"
            messageText := none } with
      | .error e => (.error (SocialPlatform.handleError .linkedin now e), st)
      | .ok _ => (.ok (), st)
    | .comment | .reply =>
      if !(strTruthy options.commentText) then
        (.error (SocialPlatform.throwAndHandle .linkedin now "Comment text is required"), st)
      else
        match api.socialAction
            { actor := "urn:li:person:" ++ jsTemplate st.profileId
              object := options.postId
              verb := none
              messageText := some (options.commentText.getD "") } with
        | .error e => (.error (SocialPlatform.handleError .linkedin now e), st)
        | .ok _ => (.ok (), st)
    | .share =>
      match api.createUgcPost
          { author := "urn:li:person:" ++ jsTemplate st.profileId
            commentaryText := orElseStr options.commentText ""
            shareMediaCategory := "NONE"
            mediaOriginalUrl := none
            mediaTitleText := none
            originalShare := some options.postId } with
      | .error e => (.error (SocialPlatform.handleError .linkedin now e), st)
      | .ok _ => (.ok (), st)
    | .retweet =>
      (.error (SocialPlatform.throwAndHandle .linkedin now
        ("Unsupported action: " ++ EngagementAction.retweet.value)), st)

/-- LinkedInPlatform.search: general post search is not offered by the
LinkedIn v2 API and always fails once the client guard passes. -/
def LinkedInPlatform.search (st : LinkedInState) (api : LinkedInApi) (now : Nat)
    (options : SearchOptions) : Except PlatformError (List Post) × LinkedInState :=
  match st.client with
  | none => (.error (SocialPlatform.throwAndHandle .linkedin now "Not authenticated"), st)
  | some _ =>
    (.error (SocialPlatform.throwAndHandle .linkedin now
      "LinkedIn API does not support general post search"), st)

/-- A constructed twitter-api-v2 client: either OAuth 1.0a user context
(read-write) or a bearer token (app-only, read-only). -/
inductive TwitterClient where
  | oauth1 (appKey appSecret accessToken accessSecret : String)
  | bearer (token : String)
deriving DecidableEq

/-- The public_metrics of a UserV2. -/
structure UserPublicMetrics where
  followers_count : Nat
  following_count : Nat
deriving DecidableEq

/-- The UserV2 shape of twitter-api-v2. -/
structure UserV2 where
  id : String
  username : String
  name : String
  profile_image_url : Option String
  description : Option String
  public_metrics : Option UserPublicMetrics
  verified : Option Bool
deriving DecidableEq

/-- The public_metrics of a TweetV2. -/
structure TweetPublicMetrics where
  like_count : Nat
  reply_count : Nat
  retweet_count : Nat
deriving DecidableEq

/-- The attachments of a TweetV2. -/
structure TweetAttachments where
  media_keys : Option (List String)
deriving DecidableEq

/-- The TweetV2 shape of twitter-api-v2; `created_at` is modelled as
milliseconds. -/
structure TweetV2 where
  id : String
  text : String
  author_id : Option String
  created_at : Option Nat
  public_metrics : Option TweetPublicMetrics
  attachments : Option TweetAttachments
deriving DecidableEq

/-- A media object from the includes of a Twitter response. -/
structure MediaV2 where
  media_key : String
  url : Option String
  preview_image_url : Option String
deriving DecidableEq

/-- The includes of a Twitter response: expanded users and media. -/
structure IncludesV2 where
  users : Option (List UserV2)
  media : Option (List MediaV2)
deriving DecidableEq

/-- A page of tweets with its includes, as returned by the timeline and
search endpoints; `data` is `response.data.data`, possibly absent. -/
structure TimelinePage where
  data : Option (List TweetV2)
  includes : Option IncludesV2
deriving DecidableEq

/-- Oracle for the twitter-api-v2 endpoints used by TwitterPlatform:
`me` is v2.me, `homeTimeline max` is v2.homeTimeline, `tweetCreate text
mediaIds` is v2.tweet, `uploadMedia path` is v1.uploadMedia,
`singleTweet id` is v2.singleTweet returning the tweet and its includes,
`likeTweet uid tid` is v2.like, `retweetTweet uid tid` is v2.retweet,
`replyTweet text tid` is v2.reply, and `searchTweets query max start end`
is v2.search. -/
structure TwitterApi where
  me : Except RawError UserV2
  homeTimeline : Nat → Except RawError TimelinePage
  tweetCreate : String → Option (List String) → Except RawError String
  uploadMedia : String → Except RawError String
  singleTweet : String → Except RawError (TweetV2 × Option IncludesV2)
  likeTweet : String → String → Except RawError Unit
  retweetTweet : String → String → Except RawError Unit
  replyTweet : String → String → Except RawError Unit
  searchTweets : String → Nat → Option Nat → Option Nat → Except RawError TimelinePage

/-- Mutable state of a TwitterPlatform instance: the config received at
construction, the client and the read-write client (null until authenticate
runs; the read-write client stays null under bearer-only credentials). -/
structure TwitterState where
  config : PlatformConfig
  client : Option TwitterClient
  readWriteClient : Option TwitterClient
deriving DecidableEq

/-- TwitterPlatform.mapTwitterUserToUser. -/
def TwitterPlatform.mapTwitterUserToUser (twitterUser : UserV2) : User :=
  { id := twitterUser.id
    username := twitterUser.username
    displayName := twitterUser.name
    avatarUrl := twitterUser.profile_image_url
    bio := twitterUser.description
    followersCount := twitterUser.public_metrics.map UserPublicMetrics.followers_count
    followingCount := twitterUser.public_metrics.map UserPublicMetrics.following_count
    verified := twitterUser.verified }

/-- The author lookup of mapTwitterTweetToPost: the user in the includes
whose id equals the tweet's author_id, when the includes and their users are
present. -/
def authorFromIncludes (authorId : Option String) (includes : Option IncludesV2) :
    Option UserV2 :=
  match includes with
  | none => none
  | some inc =>
    match inc.users with
    | none => none
    | some users => users.find? fun u => some u.id = authorId

/-- The placeholder author used when the includes do not resolve the tweet's
author; `tweet.author_id || 'unknown'` falls back when the author id is
absent or the empty string. -/
def fallbackAuthor (authorId : Option String) : User :=
  { id := orElseStr authorId "unknown"
    username := "unknown"
    displayName := "Unknown User"
    avatarUrl := none
    bio := none
    followersCount := none
    followingCount := none
    verified := none }

/-- The media URLs extracted from a tweet's media keys and the includes:
the media object's url when present, else its preview image URL. -/
def twMediaUrls (keys : List String) (media : List MediaV2) : List String :=
  match keys with
  | [] => []
  | k :: rest =>
    let tail := twMediaUrls rest media
    match media.find? fun m => m.media_key == k with
    | none => tail
    | some m =>
      if strTruthy m.url then m.url.getD "" :: tail
      else if strTruthy m.preview_image_url then m.preview_image_url.getD "" :: tail
      else tail

/-- TwitterPlatform.mapTwitterTweetToPost: resolve the author from the
includes with a placeholder fallback, extract media URLs, and default the
timestamp to `new Date()` (the `now` parameter) when created_at is absent. -/
def TwitterPlatform.mapTwitterTweetToPost (now : Nat) (tweet : TweetV2)
    (includes : Option IncludesV2) : Post :=
  let author : User :=
    match authorFromIncludes tweet.author_id includes with
    | some twitterUser => TwitterPlatform.mapTwitterUserToUser twitterUser
    | none => fallbackAuthor tweet.author_id
  let mediaUrls : List String :=
    match tweet.attachments with
    | none => []
    | some att =>
      match att.media_keys with
      | none => []
      | some keys =>
        match includes with
        | none => []
        | some inc =>
          match inc.media with
          | none => []
          | some media => twMediaUrls keys media
  { id := tweet.id
    platform := .twitter
    author := author
    content := tweet.text
    timestamp := tweet.created_at.getD now
    mediaUrls := if 0 < mediaUrls.length then some mediaUrls else none
    likesCount := tweet.public_metrics.map TweetPublicMetrics.like_count
    commentsCount := tweet.public_metrics.map TweetPublicMetrics.reply_count
    sharesCount := tweet.public_metrics.map TweetPublicMetrics.retweet_count
    url := some ("https://twitter.com/" ++ author.username ++ "/status/" ++ tweet.id) }

/-- TwitterPlatform.getMe: guard on the client, call v2.me, map the user. -/
def TwitterPlatform.getMe (st : TwitterState) (api : TwitterApi) (now : Nat) :
    Except PlatformError User × TwitterState :=
  match st.client with
  | none => (.error (SocialPlatform.throwAndHandle .twitter now "Not authenticated"), st)
  | some _ =>
    match api.me with
    | .error e => (.error (SocialPlatform.handleError .twitter now e), st)
    | .ok u => (.ok (TwitterPlatform.mapTwitterUserToUser u), st)

/-- TwitterPlatform.authenticate: with full OAuth 1.0a credentials build a
read-write client (also used as the client); otherwise with a bearer token
build a read-only client, leaving the read-write client untouched; otherwise
fail.  Then verify by calling getMe.  The clients stay installed even when
verification fails, as in the source. -/
def TwitterPlatform.authenticate (st : TwitterState) (api : TwitterApi) (now : Nat) :
    Except PlatformError Unit × TwitterState :=
  if strTruthy st.config.apiKey && strTruthy st.config.apiSecret &&
     strTruthy st.config.accessToken && strTruthy st.config.accessSecret then
    let c := TwitterClient.oauth1 (st.config.apiKey.getD "") (st.config.apiSecret.getD "")
      (st.config.accessToken.getD "") (st.config.accessSecret.getD "")
    let st1 : TwitterState := { st with client := some c, readWriteClient := some c }
    match TwitterPlatform.getMe st1 api now with
    | (.ok _, _) => (.ok (), st1)
    | (.error pe, _) =>
      (.error (SocialPlatform.handleError .twitter now (RawError.ofPlatformError pe)), st1)
  else if strTruthy st.config.bearerToken then
    let st1 : TwitterState :=
      { st with client := some (TwitterClient.bearer (st.config.bearerToken.getD "")) }
    match TwitterPlatform.getMe st1 api now with
    | (.ok _, _) => (.ok (), st1)
    | (.error pe, _) =>
      (.error (SocialPlatform.handleError .twitter now (RawError.ofPlatformError pe)), st1)
  else
    (.error (SocialPlatform.throwAndHandle .twitter now "Missing Twitter API credentials"), st)

/-- TwitterPlatform.getFeed: guard on the client, getMe (its result unused),
fetch the home timeline, map every tweet with the page's includes. -/
def TwitterPlatform.getFeed (st : TwitterState) (api : TwitterApi) (now : Nat)
    (options : FeedOptions) : Except PlatformError (List Post) × TwitterState :=
  match st.client with
  | none => (.error (SocialPlatform.throwAndHandle .twitter now "Not authenticated"), st)
  | some _ =>
    match TwitterPlatform.getMe st api now with
    | (.error pe, _) =>
      (.error (SocialPlatform.handleError .twitter now (RawError.ofPlatformError pe)), st)
    | (.ok _, _) =>
      match api.homeTimeline (natOr options.limit 20) with
      | .error e => (.error (SocialPlatform.handleError .twitter now e), st)
      | .ok page =>
        (.ok ((page.data.getD []).map fun t =>
          TwitterPlatform.mapTwitterTweetToPost now t page.includes), st)

/-- Sequential upload of the media URLs of a post, as in the for loop of
TwitterPlatform.post; the first raw failure aborts. -/
def uploadAll (api : TwitterApi) : List String → Except RawError (List String)
  | [] => .ok []
  | u :: rest =>
    match api.uploadMedia u with
    | .error e => .error e
    | .ok mid =>
      match uploadAll api rest with
      | .error e => .error e
      | .ok mids => .ok (mid :: mids)

/-- TwitterPlatform.post: guard on the read-write client, require tweet text,
upload any media, create the tweet, then fetch the created tweet with full
details and map it. -/
def TwitterPlatform.post (st : TwitterState) (api : TwitterApi) (now : Nat)
    (options : PostOptions) : Except PlatformError Post × TwitterState :=
  match st.readWriteClient with
  | none =>
    (.error (SocialPlatform.throwAndHandle .twitter now
      "Write access not available. Need OAuth 1.0a credentials."), st)
  | some _ =>
    if !(strTruthy options.text) then
      (.error (SocialPlatform.throwAndHandle .twitter now "Tweet text is required"), st)
    else
      let mediaStep : Except RawError (Option (List String)) :=
        match options.mediaUrls with
        | some urls =>
          if 0 < urls.length then
            match uploadAll api urls with
            | .error e => .error e
            | .ok ids => .ok (some ids)
          else .ok none
        | none => .ok none
      match mediaStep with
      | .error e => (.error (SocialPlatform.handleError .twitter now e), st)
      | .ok mediaIds =>
        match api.tweetCreate (options.text.getD "") mediaIds with
        | .error e => (.error (SocialPlatform.handleError .twitter now e), st)
        | .ok newId =>
          match api.singleTweet newId with
          | .error e => (.error (SocialPlatform.handleError .twitter now e), st)
          | .ok (fullTweet, includes) =>
            (.ok (TwitterPlatform.mapTwitterTweetToPost now fullTweet includes), st)

/-- TwitterPlatform.engage: guard on the read-write client, then getMe (a
network call) before the action switch; like and retweet use the caller's
user id, reply and comment require comment text, and any other action hits
the default unsupported branch. -/
def TwitterPlatform.engage (st : TwitterState) (api : TwitterApi) (now : Nat)
    (options : EngagementOptions) : Except PlatformError Unit × TwitterState :=
  match st.readWriteClient with
  | none =>
    (.error (SocialPlatform.throwAndHandle .twitter now
      "Write access not available. Need OAuth 1.0a credentials."), st)
  | some _ =>
    match TwitterPlatform.getMe st api now with
    | (.error pe, _) =>
      (.error (SocialPlatform.handleError .twitter now (RawError.ofPlatformError pe)), st)
    | (.ok me, _) =>
      match options.action with
      | .like =>
        match api.likeTweet me.id options.postId with
        | .error e => (.error (SocialPlatform.handleError .twitter now e), st)
        | .ok _ => (.ok (), st)
      | .retweet =>
        match api.retweetTweet me.id options.postId with
        | .error e => (.error (SocialPlatform.handleError .twitter now e), st)
        | .ok _ => (.ok (), st)
      | .reply | .comment =>
        if !(strTruthy options.commentText) then
          (.error (SocialPlatform.throwAndHandle .twitter now
            "Comment text is required for replies"), st)
        else
          match api.replyTweet (options.commentText.getD "") options.postId with
          | .error e => (.error (SocialPlatform.handleError .twitter now e), st)
          | .ok _ => (.ok (), st)
      | .share =>
        (.error (SocialPlatform.throwAndHandle .twitter now
          ("Unsupported action: " ++ EngagementAction.share.value)), st)

/-- TwitterPlatform.search: guard on the client, call v2.search with the
query, limit and time bounds, map every tweet of the result page. -/
def TwitterPlatform.search (st : TwitterState) (api : TwitterApi) (now : Nat)
    (options : SearchOptions) : Except PlatformError (List Post) × TwitterState :=
  match st.client with
  | none => (.error (SocialPlatform.throwAndHandle .twitter now "Not authenticated"), st)
  | some _ =>
    match api.searchTweets options.query (natOr options.limit 20)
        options.startTime options.endTime with
    | .error e => (.error (SocialPlatform.handleError .twitter now e), st)
    | .ok page =>
      (.ok ((page.data.getD []).map fun t =>
        TwitterPlatform.mapTwitterTweetToPost now t page.includes), st)

/-- JavaScript String.toLowerCase, character by character. -/
def jsToLowerCase (s : String) : String :=
  String.mk (s.data.map Char.toLower)

/-- parsePlatform of src/cli/utils.ts: resolve a platform name or alias,
or fail with the unknown-platform message. -/
def parsePlatform (platformStr : String) : Except String Platform :=
  let lower := jsToLowerCase platformStr
  if lower == "twitter" || lower == "x" then .ok .twitter
  else if lower == "instagram" || lower == "ig" then .ok .instagram
  else if lower == "linkedin" || lower == "li" then .ok .linkedin
  else .error ("Unknown platform: " ++ platformStr)

/-- A configured platform instance as handed to handlePost: one of the three
adapters together with its state and vendor oracle. -/
inductive PlatformInstance where
  | tw (st : TwitterState) (api : TwitterApi)
  | ig (st : InstagramState) (api : InstagramApi)
  | li (st : LinkedInState) (api : LinkedInApi)

/-- SocialPlatform.getPlatform for a platform instance. -/
def PlatformInstance.getPlatform : PlatformInstance → Platform
  | .tw _ _ => .twitter
  | .ig _ _ => .instagram
  | .li _ _ => .linkedin

/-- The `platform.post(postOptions)` call of handlePost, dispatched to the
adapter the instance wraps. -/
def PlatformInstance.doPost (inst : PlatformInstance) (now : Nat) (options : PostOptions) :
    Except PlatformError Post :=
  match inst with
  | .tw st api => (TwitterPlatform.post st api now options).1
  | .ig st api => (InstagramPlatform.post st api now options).1
  | .li st api => (LinkedInPlatform.post st api now options).1

/-- One entry of the results array of handlePost:
`{ platform, success, error?, postId? }`. -/
structure PostRecord where
  platform : Platform
  success : Bool
  error : Option String
  postId : Option String
deriving DecidableEq

/-- The per-platform posting loop of handlePost in src/cli/commands/post.ts:
each platform is attempted inside its own try/catch and contributes exactly
one record, success with the new post id or failure with the error message. -/
def handlePostResults (platforms : List PlatformInstance) (now : Nat)
    (options : PostOptions) : List PostRecord :=
  platforms.map fun p =>
    match p.doPost now options with
    | .ok post =>
      { platform := p.getPlatform, success := true, error := none, postId := some post.id }
    | .error e =>
      { platform := p.getPlatform, success := false, error := some e.message, postId := none }

/-- A full OAuth 1.0a credential bundle used by concrete scenarios. -/
def cfgFull : PlatformConfig :=
  { apiKey := some "k1"
    apiSecret := some "k2"
    accessToken := some "tok"
    accessSecret := some "k4"
    bearerToken := none
    clientId := none
    clientSecret := none
    userId := some "uid9"
    appId := none
    redirectUri := none }

/-- A raw vendor error with HTTP status 500 and a plain message. -/
def raw500 : RawError :=
  { code := none
    statusCode := some 500
    message := some "Internal Server Error"
    dataTitle := none
    dataDetail := none
    dataFirstErrorMessage := none
    rateLimitReset := none }

/-- A raw vendor 403 used by concrete scenarios. -/
def raw403 : RawError :=
  { code := some 403
    statusCode := none
    message := some "Forbidden"
    dataTitle := none
    dataDetail := some "Your client app is not configured with the appropriate oauth1 app permissions for this endpoint."
    dataFirstErrorMessage := none
    rateLimitReset := none }

/-- A raw vendor 429 whose rateLimit.reset field is the number 0 (epoch). -/
def raw429zero : RawError :=
  { code := some 429
    statusCode := none
    message := some "Too Many Requests"
    dataTitle := none
    dataDetail := none
    dataFirstErrorMessage := none
    rateLimitReset := some 0 }

/-- The credits message of the 402 branch differs from the generic payment
message on every platform. -/
theorem creditsMessageNeGeneric (p : Platform) :
    creditsDepletedMessage ≠ paymentRequiredMessage p := by
  cases p <;> decide

/-- C1: for every adapter and every vendor error carrying exactly one HTTP
status code in 401, 402, 403, 429, the shared error handler fires the branch
of the corresponding taxonomy kind (401 AuthenticationFailed, 402
QuotaExhausted, 403 PermissionDenied, 429 RateLimited), never the unknown
passthrough, stamps the produced error with that status, and on 402 emits
the credits-specific message exactly when the vendor payload carries the
CreditsDepleted title and the generic payment message otherwise, the two
messages being distinct. -/
theorem claim_c1_error_classification :
    ∀ (p : Platform) (now : Nat) (e : RawError) (s : Nat),
      (s = 401 ∨ s = 402 ∨ s = 403 ∨ s = 429) →
      carriesOnly e s →
      branchKind e = specStatusKind s ∧
      branchKind e ≠ ErrorKind.unknown ∧
      (SocialPlatform.handleError p now e).statusCode = some s ∧
      (s = 402 →
        (SocialPlatform.handleError p now e).message =
          (if e.dataTitle = some "CreditsDepleted" then creditsDepletedMessage
           else paymentRequiredMessage p)) ∧
      creditsDepletedMessage ≠ paymentRequiredMessage p := by
  intro p now e s hs hco
  obtain ⟨h1, h2, h3⟩ := hco
  refine ⟨?_, ?_, ?_, ?_, creditsMessageNeGeneric p⟩ <;>
    rcases hs with rfl | rfl | rfl | rfl <;>
      rcases h2 with h2 | h2 <;> rcases h3 with h3 | h3 <;>
        first
          | (rw [h2, h3] at h1;
             exact h1.elim (fun h => Option.noConfusion h) (fun h => Option.noConfusion h))
          | (simp [branchKind, specStatusKind, SocialPlatform.handleError,
              SocialPlatform.createError, h2, h3];
             try (split <;> simp))

/-- A raw vendor 402 carrying the CreditsDepleted title. -/
def eCredits402 : RawError :=
  { code := some 402
    statusCode := none
    message := some "Payment Required"
    dataTitle := some "CreditsDepleted"
    dataDetail := none
    dataFirstErrorMessage := none
    rateLimitReset := some 0 }

/-- Witness for C1 at the concrete credits-depleted 402 error. -/
theorem claim_c1_error_classification_witness :
    branchKind eCredits402 = specStatusKind 402 ∧
    branchKind eCredits402 ≠ ErrorKind.unknown ∧
    (SocialPlatform.handleError .twitter 0 eCredits402).statusCode = some 402 ∧
    (402 = 402 →
      (SocialPlatform.handleError .twitter 0 eCredits402).message =
        (if eCredits402.dataTitle = some "CreditsDepleted" then creditsDepletedMessage
         else paymentRequiredMessage .twitter)) ∧
    creditsDepletedMessage ≠ paymentRequiredMessage .twitter :=
  claim_c1_error_classification .twitter 0 eCredits402 402
    (Or.inr (Or.inl rfl)) (by decide)

/-- A raw vendor 429 carrying a nonzero rateLimit.reset of 1700000 seconds. -/
def raw429vendor : RawError :=
  { code := some 429
    statusCode := none
    message := some "Too Many Requests"
    dataTitle := none
    dataDetail := none
    dataFirstErrorMessage := none
    rateLimitReset := some 1700000 }

/-- C7 counterexample: the vendor supplies the reset time 0, yet the raised
error carries the conservative default now + 15 minutes instead of the
vendor-supplied value, because 0 is falsy. -/
theorem claim_c7_counterexample :
    raw429zero.rateLimitReset = some 0 ∧
    raw429zero.code = some 429 ∧
    (SocialPlatform.handleError .twitter 1000 raw429zero).rateLimitReset ≠ some (0 * 1000) ∧
    (SocialPlatform.handleError .twitter 1000 raw429zero).rateLimitReset
      = some (1000 + 15 * 60 * 1000) := by
  decide

/-- C7 (amended): a vendor error with status 429 classified by handleError is
stamped with status 429 and carries resetAt equal to the vendor-supplied
reset (converted from seconds to milliseconds) whenever the vendor supplies a
nonzero one, and the default now + 15 minutes when the reset is absent or 0
(a reset of 0 is falsy and treated as absent). -/
theorem claim_c7_rate_limit_reset :
    ∀ (p : Platform) (now : Nat) (e : RawError),
      (e.code = some 429 ∨ e.statusCode = some 429) →
      (SocialPlatform.handleError p now e).statusCode = some 429 ∧
      (∀ r : Nat, e.rateLimitReset = some r → r ≠ 0 →
        (SocialPlatform.handleError p now e).rateLimitReset = some (r * 1000)) ∧
      ((e.rateLimitReset = none ∨ e.rateLimitReset = some 0) →
        (SocialPlatform.handleError p now e).rateLimitReset
          = some (now + 15 * 60 * 1000)) := by
  intro p now e h
  unfold SocialPlatform.handleError
  rw [if_pos h]
  refine ⟨rfl, ?_, ?_⟩
  · intro r hr hr0
    simp [SocialPlatform.createError, natTruthy, hr, hr0]
  · intro hr
    rcases hr with hr | hr <;> simp [SocialPlatform.createError, natTruthy, hr]

/-- Witness for C7 at the concrete 429 error with vendor reset 1700000. -/
theorem claim_c7_rate_limit_reset_witness :
    (SocialPlatform.handleError .twitter 0 raw429vendor).statusCode = some 429 ∧
    (SocialPlatform.handleError .twitter 0 raw429vendor).rateLimitReset
      = some (1700000 * 1000) := by
  obtain ⟨h1, h2, _⟩ := claim_c7_rate_limit_reset .twitter 0 raw429vendor (Or.inl rfl)
  exact ⟨h1, h2 1700000 rfl (by decide)⟩

/-- The message of the Instagram like branch. -/
def igLikeMsg : String := "Instagram API does not support liking posts programmatically"

/-- The message of the Instagram share branch. -/
def igShareMsg : String := "Instagram API does not support sharing posts programmatically"

/-- The message of the Instagram search stub. -/
def igSearchMsg : String :=
  "Instagram API does not support post search. " ++
  "Only hashtag search is available with additional permissions."

/-- The message of the LinkedIn search stub. -/
def liSearchMsg : String := "LinkedIn API does not support general post search"

/-- A concrete Instagram Graph API user. -/
def igUserFix : InstagramUser :=
  { id := "iguid"
    username := "igname"
    name := some "IG Name"
    profile_picture_url := none
    biography := none
    followers_count := some 10
    follows_count := some 5 }

/-- A concrete Instagram media item whose caption is hello. -/
def igMediaHello : InstagramMedia :=
  { id := "m1"
    caption := some "hello"
    media_type := "IMAGE"
    media_url := some "https://cdn.example/img.png"
    permalink := "https://instagram.example/p/m1"
    timestamp := 111
    username := "igname"
    like_count := some 1
    comments_count := some 2 }

/-- A concrete Instagram oracle on which every endpoint succeeds. -/
def igApiFix : InstagramApi :=
  { getUser := fun _ => .ok igUserFix
    getUserMedia := fun _ _ => .ok [igMediaHello]
    createMediaContainer := fun _ _ _ => .ok "c1"
    publishMedia := fun _ _ => .ok "m1"
    getMedia := fun _ => .ok igMediaHello
    postComment := fun _ _ => .ok () }

/-- A concrete Instagram oracle on which every endpoint fails with HTTP 500. -/
def igApi500 : InstagramApi :=
  { getUser := fun _ => .error raw500
    getUserMedia := fun _ _ => .error raw500
    createMediaContainer := fun _ _ _ => .error raw500
    publishMedia := fun _ _ => .error raw500
    getMedia := fun _ => .error raw500
    postComment := fun _ _ => .error raw500 }

/-- An authenticated Instagram adapter state. -/
def igStAuthed : InstagramState :=
  { config := cfgFull
    client := some { baseURL := instagramBaseUrl, token := "tok" } }

/-- A concrete LinkedIn profile. -/
def liProfFix : LinkedInProfile :=
  { id := "liid"
    localizedFirstName := "Ada"
    localizedLastName := "Linked"
    profilePictureDisplayImage := none
    headline := some "Engineer" }

/-- A concrete LinkedIn UGC post whose text is hello. -/
def liPostHello : LinkedInPost :=
  { id := "urn:li:share:1"
    author := "urn:li:person:liid"
    createdTime := 222
    text := some { text := "hello" }
    content := none
    commentary := none }

/-- A concrete LinkedIn oracle on which every endpoint succeeds. -/
def liApiFix : LinkedInApi :=
  { me := .ok liProfFix
    ugcPostsByAuthor := fun _ _ => .ok [liPostHello]
    createUgcPost := fun _ => .ok "urn:li:share:1"
    socialAction := fun _ => .ok () }

/-- An authenticated LinkedIn adapter state. -/
def liStAuthed : LinkedInState :=
  { config := cfgFull
    client := some { baseURL := linkedinBaseUrl, token := "tok" }
    profileId := some "liid" }

/-- A concrete Twitter user. -/
def twUserFix : UserV2 :=
  { id := "twid"
    username := "twname"
    name := "Tw Name"
    profile_image_url := none
    description := none
    public_metrics := none
    verified := some false }

/-- A concrete tweet whose text is hello. -/
def twTweetHello : TweetV2 :=
  { id := "t1"
    text := "hello"
    author_id := some "twid"
    created_at := some 333
    public_metrics := none
    attachments := none }

/-- A concrete Twitter oracle on which every endpoint succeeds and the
created tweet reads back as the hello tweet. -/
def twApiFix : TwitterApi :=
  { me := .ok twUserFix
    homeTimeline := fun _ => .ok { data := some [twTweetHello]
                                   includes := some { users := some [twUserFix], media := none } }
    tweetCreate := fun _ _ => .ok "t1"
    uploadMedia := fun _ => .ok "mk1"
    singleTweet := fun _ => .ok (twTweetHello, some { users := some [twUserFix], media := none })
    likeTweet := fun _ _ => .ok ()
    retweetTweet := fun _ _ => .ok ()
    replyTweet := fun _ _ => .ok ()
    searchTweets := fun _ _ _ _ => .ok { data := some [twTweetHello]
                                         includes := some { users := some [twUserFix], media := none } } }

/-- The OAuth 1.0a client built from cfgFull. -/
def twClientFix : TwitterClient := .oauth1 "k1" "k2" "tok" "k4"

/-- An authenticated read-write Twitter adapter state. -/
def twStAuthed : TwitterState :=
  { config := cfgFull
    client := some twClientFix
    readWriteClient := some twClientFix }

/-- C2 counterexample: engage with action like on the Instagram adapter (post
id 42) raises the liking-unsupported error, but its message does not contain
the literal substring like — the action is named in gerund form (liking). -/
theorem claim_c2_counterexample :
    (InstagramPlatform.engage igStAuthed igApiFix 5
        { postId := "42", action := .like, commentText := none }).1
      = .error { message := igLikeMsg
                 platform := .instagram
                 statusCode := none
                 rateLimitReset := none } ∧
    containsSubstr igLikeMsg "like" = false := by
  constructor
  · rfl
  · decide

/-- C2 (amended): unsupported actions fail with the unsupported-operation
error naming the action — in gerund form (liking, sharing) for the Instagram
like and share branches, and containing the word search for the Instagram and
LinkedIn search stubs — and never return as an empty success; the same
engage call with post id 42 and action like returns normally on the Twitter
adapter. -/
theorem claim_c2_unsupported_actions :
    (∀ (st : InstagramState) (api : InstagramApi) (now : Nat) (pid : String)
        (ct : Option String) (c : AxiosClient), st.client = some c →
      InstagramPlatform.engage st api now { postId := pid, action := .like, commentText := ct }
        = (.error { message := igLikeMsg, platform := .instagram
                    statusCode := none, rateLimitReset := none }, st) ∧
      containsSubstr igLikeMsg "liking" = true) ∧
    (∀ (st : InstagramState) (api : InstagramApi) (now : Nat) (pid : String)
        (ct : Option String) (c : AxiosClient), st.client = some c →
      InstagramPlatform.engage st api now { postId := pid, action := .share, commentText := ct }
        = (.error { message := igShareMsg, platform := .instagram
                    statusCode := none, rateLimitReset := none }, st) ∧
      containsSubstr igShareMsg "sharing" = true) ∧
    (∀ (st : InstagramState) (api : InstagramApi) (now : Nat) (q : SearchOptions)
        (c : AxiosClient), st.client = some c →
      InstagramPlatform.search st api now q
        = (.error { message := igSearchMsg, platform := .instagram
                    statusCode := none, rateLimitReset := none }, st) ∧
      containsSubstr igSearchMsg "search" = true) ∧
    (∀ (st : LinkedInState) (api : LinkedInApi) (now : Nat) (q : SearchOptions)
        (c : AxiosClient), st.client = some c →
      LinkedInPlatform.search st api now q
        = (.error { message := liSearchMsg, platform := .linkedin
                    statusCode := none, rateLimitReset := none }, st) ∧
      containsSubstr liSearchMsg "search" = true) ∧
    (∀ (st : TwitterState) (api : TwitterApi) (now : Nat) (crw cr : TwitterClient)
        (u : UserV2),
      st.readWriteClient = some crw → st.client = some cr →
      api.me = .ok u → api.likeTweet u.id "42" = .ok () →
      TwitterPlatform.engage st api now { postId := "42", action := .like, commentText := none }
        = (.ok (), st)) := by
  refine ⟨?_, ?_, ?_, ?_, ?_⟩
  · intro st api now pid ct c hc
    refine ⟨?_, by decide⟩
    unfold InstagramPlatform.engage
    rw [hc]
    rfl
  · intro st api now pid ct c hc
    refine ⟨?_, by decide⟩
    unfold InstagramPlatform.engage
    rw [hc]
    rfl
  · intro st api now q c hc
    refine ⟨?_, by decide⟩
    unfold InstagramPlatform.search
    rw [hc]
    rfl
  · intro st api now q c hc
    refine ⟨?_, by decide⟩
    unfold LinkedInPlatform.search
    rw [hc]
    rfl
  · intro st api now crw cr u hrw hcl hme hlike
    unfold TwitterPlatform.engage TwitterPlatform.getMe
    rw [hrw, hcl, hme]
    simp only [TwitterPlatform.mapTwitterUserToUser]
    rw [hlike]

/-- A concrete search request. -/
def soFix : SearchOptions := { query := "q", limit := none, startTime := none, endTime := none }

/-- Witness for C2 at the concrete authenticated adapter states. -/
theorem claim_c2_unsupported_actions_witness :
    (InstagramPlatform.engage igStAuthed igApiFix 5
        { postId := "42", action := .like, commentText := none }
      = (.error { message := igLikeMsg, platform := .instagram
                  statusCode := none, rateLimitReset := none }, igStAuthed) ∧
     containsSubstr igLikeMsg "liking" = true) ∧
    (InstagramPlatform.engage igStAuthed igApiFix 5
        { postId := "42", action := .share, commentText := none }
      = (.error { message := igShareMsg, platform := .instagram
                  statusCode := none, rateLimitReset := none }, igStAuthed) ∧
     containsSubstr igShareMsg "sharing" = true) ∧
    (InstagramPlatform.search igStAuthed igApiFix 5 soFix
      = (.error { message := igSearchMsg, platform := .instagram
                  statusCode := none, rateLimitReset := none }, igStAuthed) ∧
     containsSubstr igSearchMsg "search" = true) ∧
    (LinkedInPlatform.search liStAuthed liApiFix 5 soFix
      = (.error { message := liSearchMsg, platform := .linkedin
                  statusCode := none, rateLimitReset := none }, liStAuthed) ∧
     containsSubstr liSearchMsg "search" = true) ∧
    TwitterPlatform.engage twStAuthed twApiFix 5
        { postId := "42", action := .like, commentText := none }
      = (.ok (), twStAuthed) :=
  ⟨claim_c2_unsupported_actions.1 igStAuthed igApiFix 5 "42" none _ rfl,
   claim_c2_unsupported_actions.2.1 igStAuthed igApiFix 5 "42" none _ rfl,
   claim_c2_unsupported_actions.2.2.1 igStAuthed igApiFix 5 soFix _ rfl,
   claim_c2_unsupported_actions.2.2.2.1 liStAuthed liApiFix 5 soFix _ rfl,
   claim_c2_unsupported_actions.2.2.2.2 twStAuthed twApiFix 5 twClientFix twClientFix
     twUserFix rfl rfl rfl rfl⟩

/-- The InstagramPlatform constructor: store the config, client starts null. -/
def InstagramState.fresh (config : PlatformConfig) : InstagramState :=
  { config := config, client := none }

/-- The LinkedInPlatform constructor: store the config, client and profile id
start null. -/
def LinkedInState.fresh (config : PlatformConfig) : LinkedInState :=
  { config := config, client := none, profileId := none }

/-- The TwitterPlatform constructor: store the config, both clients start
null. -/
def TwitterState.fresh (config : PlatformConfig) : TwitterState :=
  { config := config, client := none, readWriteClient := none }

/-- The error raised by the not-authenticated guard of an adapter. -/
def notAuthErr (p : Platform) : PlatformError :=
  { message := "Not authenticated", platform := p, statusCode := none, rateLimitReset := none }

/-- The error raised by the Twitter write-access guard. -/
def noWriteErr : PlatformError :=
  { message := "Write access not available. Need OAuth 1.0a credentials."
    platform := .twitter, statusCode := none, rateLimitReset := none }

/-- C4 counterexample: after an authenticate() attempt that fails (the
verification call returns HTTP 500), the Instagram client is already
installed, so a subsequent getMe call issued before authenticate() has ever
succeeded surfaces the classified vendor 500 error — not an
AuthenticationFailed error (its status is 500, not 401, and its message is
not the Not authenticated guard message). -/
theorem claim_c4_counterexample :
    (InstagramPlatform.authenticate (InstagramState.fresh cfgFull) igApi500 7).1
      = .error { message := "Internal Server Error", platform := .instagram
                 statusCode := some 500, rateLimitReset := none } ∧
    (InstagramPlatform.getMe
        (InstagramPlatform.authenticate (InstagramState.fresh cfgFull) igApi500 7).2
        igApi500 7).1
      = .error { message := "Internal Server Error", platform := .instagram
                 statusCode := some 500, rateLimitReset := none } ∧
    "Internal Server Error" ≠ "Not authenticated" ∧
    (some 500 : Option Nat) ≠ some 401 := by
  exact ⟨rfl, rfl, by decide, by decide⟩

/-- C4 (amended): on a freshly constructed adapter, before authenticate() has
been called, every Capability Contract operation fails with the
not-authenticated guard error (the write-access guard error for Twitter post
and engage, which check the read-write client) and returns the state
unchanged — never a null-reference crash; once a failed authenticate() has
installed a vendor client, an operation may instead surface a
vendor-classified error. -/
theorem claim_c4_guard_before_auth :
    ∀ (config : PlatformConfig) (igApi : InstagramApi) (liApi : LinkedInApi)
      (twApi : TwitterApi) (now : Nat) (fo : FeedOptions) (po : PostOptions)
      (eo : EngagementOptions) (so : SearchOptions),
      InstagramPlatform.getMe (InstagramState.fresh config) igApi now
        = (.error (notAuthErr .instagram), InstagramState.fresh config) ∧
      InstagramPlatform.getFeed (InstagramState.fresh config) igApi now fo
        = (.error (notAuthErr .instagram), InstagramState.fresh config) ∧
      InstagramPlatform.post (InstagramState.fresh config) igApi now po
        = (.error (notAuthErr .instagram), InstagramState.fresh config) ∧
      InstagramPlatform.engage (InstagramState.fresh config) igApi now eo
        = (.error (notAuthErr .instagram), InstagramState.fresh config) ∧
      InstagramPlatform.search (InstagramState.fresh config) igApi now so
        = (.error (notAuthErr .instagram), InstagramState.fresh config) ∧
      LinkedInPlatform.getMe (LinkedInState.fresh config) liApi now
        = (.error (notAuthErr .linkedin), LinkedInState.fresh config) ∧
      LinkedInPlatform.getFeed (LinkedInState.fresh config) liApi now fo
        = (.error (notAuthErr .linkedin), LinkedInState.fresh config) ∧
      LinkedInPlatform.post (LinkedInState.fresh config) liApi now po
        = (.error (notAuthErr .linkedin), LinkedInState.fresh config) ∧
      LinkedInPlatform.engage (LinkedInState.fresh config) liApi now eo
        = (.error (notAuthErr .linkedin), LinkedInState.fresh config) ∧
      LinkedInPlatform.search (LinkedInState.fresh config) liApi now so
        = (.error (notAuthErr .linkedin), LinkedInState.fresh config) ∧
      TwitterPlatform.getMe (TwitterState.fresh config) twApi now
        = (.error (notAuthErr .twitter), TwitterState.fresh config) ∧
      TwitterPlatform.getFeed (TwitterState.fresh config) twApi now fo
        = (.error (notAuthErr .twitter), TwitterState.fresh config) ∧
      TwitterPlatform.post (TwitterState.fresh config) twApi now po
        = (.error noWriteErr, TwitterState.fresh config) ∧
      TwitterPlatform.engage (TwitterState.fresh config) twApi now eo
        = (.error noWriteErr, TwitterState.fresh config) ∧
      TwitterPlatform.search (TwitterState.fresh config) twApi now so
        = (.error (notAuthErr .twitter), TwitterState.fresh config) := by
  intro config igApi liApi twApi now fo po eo so
  exact ⟨rfl, rfl, rfl, rfl, rfl, rfl, rfl, rfl, rfl, rfl, rfl, rfl, rfl, rfl, rfl⟩

/-- A Twitter oracle on which tweet creation fails with a vendor 403. -/
def twApi403 : TwitterApi := { twApiFix with tweetCreate := fun _ _ => .error raw403 }

/-- The post request used by the cross-posting scenario. -/
def poHello : PostOptions :=
  { text := some "hello", caption := none, mediaPath := none
    mediaUrls := none, linkUrl := none, linkTitle := none }

/-- The classified message of the vendor 403 raised while posting to
Twitter in the cross-posting scenario. -/
def twPermDeniedMsg : String :=
  "Permission denied for " ++ Platform.value .twitter ++ ". " ++
  "Your client app is not configured with the appropriate oauth1 app permissions for this endpoint." ++
  "\n" ++ permissionFixSteps

/-- C3: the posting loop of handlePost produces exactly one record per target
platform (a failure never aborts the loop or throws), the dispatcher resolves
the names twitter and linkedin, and in the concrete scenario where the
Twitter post fails with a vendor 403 and the LinkedIn post succeeds the
aggregate is one failure record carrying the error message and one success
record carrying the new post id — one of each, not a single boolean. -/
theorem claim_c3_partial_failure_aggregate :
    (∀ (ps : List PlatformInstance) (now : Nat) (opts : PostOptions),
      (handlePostResults ps now opts).length = ps.length) ∧
    parsePlatform "twitter" = .ok .twitter ∧
    parsePlatform "linkedin" = .ok .linkedin ∧
    handlePostResults [.tw twStAuthed twApi403, .li liStAuthed liApiFix] 9 poHello
      = [{ platform := .twitter, success := false
           error := some twPermDeniedMsg, postId := none },
         { platform := .linkedin, success := true, error := none
           postId := some "urn:li:share:1" }] ∧
    ((handlePostResults [.tw twStAuthed twApi403, .li liStAuthed liApiFix] 9 poHello).filter
        (fun r => r.success)).length = 1 ∧
    ((handlePostResults [.tw twStAuthed twApi403, .li liStAuthed liApiFix] 9 poHello).filter
        (fun r => !r.success)).length = 1 := by
  refine ⟨?_, by rfl, by rfl, rfl, rfl, rfl⟩
  intro ps now opts
  simp [handlePostResults]

/-- C5: posting the text hello and reading it back through the same
adapter's read path yields a Post whose content is hello and whose platform
tag is the producing adapter's platform, whenever the vendor echoes the
stored content: Twitter's post re-fetches the created tweet via singleTweet,
Instagram's post re-fetches the published media, and LinkedIn's post
constructs the Post locally from the request (its getFeed read path echoes
the stored UGC post the same way). -/
theorem claim_c5_round_trip :
    (∀ (st : TwitterState) (api : TwitterApi) (now : Nat) (opts : PostOptions)
        (c : TwitterClient) (tid : String) (tw : TweetV2) (inc : Option IncludesV2),
      st.readWriteClient = some c →
      opts.text = some "hello" →
      opts.mediaUrls = none →
      api.tweetCreate "hello" none = .ok tid →
      api.singleTweet tid = .ok (tw, inc) →
      tw.text = "hello" →
      (TwitterPlatform.post st api now opts).1
        = .ok (TwitterPlatform.mapTwitterTweetToPost now tw inc) ∧
      (TwitterPlatform.mapTwitterTweetToPost now tw inc).content = "hello" ∧
      (TwitterPlatform.mapTwitterTweetToPost now tw inc).platform = .twitter) ∧
    (∀ (st : InstagramState) (api : InstagramApi) (now : Nat) (opts : PostOptions)
        (c : AxiosClient) (url cid mid : String) (media : InstagramMedia)
        (igu : InstagramUser),
      st.client = some c →
      opts.text = some "hello" →
      opts.caption = none →
      opts.mediaUrls = some [url] →
      url ≠ "" →
      api.createMediaContainer (jsTemplate st.config.userId) url "hello" = .ok cid →
      api.publishMedia (jsTemplate st.config.userId) cid = .ok mid →
      api.getMedia mid = .ok media →
      media.caption = some "hello" →
      api.getUser (jsTemplate st.config.userId) = .ok igu →
      (InstagramPlatform.post st api now opts).1
        = .ok (InstagramPlatform.mapInstagramMediaToPost media
            (InstagramPlatform.mapInstagramUserToUser igu)) ∧
      (InstagramPlatform.mapInstagramMediaToPost media
          (InstagramPlatform.mapInstagramUserToUser igu)).content = "hello" ∧
      (InstagramPlatform.mapInstagramMediaToPost media
          (InstagramPlatform.mapInstagramUserToUser igu)).platform = .instagram) ∧
    (∀ (st : LinkedInState) (api : LinkedInApi) (now : Nat) (opts : PostOptions)
        (c : AxiosClient) (pid nid : String) (prof : LinkedInProfile),
      st.client = some c →
      st.profileId = some pid →
      pid ≠ "" →
      opts.text = some "hello" →
      opts.linkUrl = none →
      api.createUgcPost { author := "urn:li:person:" ++ pid, commentaryText := "hello"
                          shareMediaCategory := "NONE", mediaOriginalUrl := none
                          mediaTitleText := none, originalShare := none } = .ok nid →
      api.me = .ok prof →
      (LinkedInPlatform.post st api now opts).1
        = .ok { id := nid, platform := .linkedin
                author := LinkedInPlatform.mapLinkedInProfileToUser prof
                content := "hello", timestamp := now, mediaUrls := none
                likesCount := none, commentsCount := none, sharesCount := none
                url := some ("https://www.linkedin.com/feed/update/" ++ nid ++ "/") }) ∧
    (∀ (st : LinkedInState) (api : LinkedInApi) (now : Nat) (c : AxiosClient)
        (pid : String) (lp : LinkedInPost) (prof : LinkedInProfile),
      st.client = some c →
      st.profileId = some pid →
      pid ≠ "" →
      api.ugcPostsByAuthor pid 20 = .ok [lp] →
      lp.text = some { text := "hello" } →
      api.me = .ok prof →
      (LinkedInPlatform.getFeed st api now
          { limit := none, maxResults := none, sinceId := none, beforeId := none }).1
        = .ok [LinkedInPlatform.mapLinkedInPostToPost lp
            (LinkedInPlatform.mapLinkedInProfileToUser prof)] ∧
      (LinkedInPlatform.mapLinkedInPostToPost lp
          (LinkedInPlatform.mapLinkedInProfileToUser prof)).content = "hello" ∧
      (LinkedInPlatform.mapLinkedInPostToPost lp
          (LinkedInPlatform.mapLinkedInProfileToUser prof)).platform = .linkedin) := by
  refine ⟨?_, ?_, ?_, ?_⟩
  · intro st api now opts c tid tw inc hrw htext hmedia htc hsingle htw
    refine ⟨?_, ?_, ?_⟩
    · simp [TwitterPlatform.post, hrw, htext, hmedia, strTruthy, htc, hsingle]
    · simp [TwitterPlatform.mapTwitterTweetToPost, htw]
    · simp [TwitterPlatform.mapTwitterTweetToPost]
  · intro st api now opts c url cid mid media igu hc htext hcap hmedia hurl h1 h2 h3 hmc h4
    refine ⟨?_, ?_, ?_⟩
    · simp [InstagramPlatform.post, InstagramPlatform.getMe, hc, htext, hcap, hmedia,
        strTruthy, firstElem, orElseStr, hurl, h1, h2, h3, h4]
    · simp [InstagramPlatform.mapInstagramMediaToPost, orElseStr, strTruthy, hmc]
    · simp [InstagramPlatform.mapInstagramMediaToPost]
  · intro st api now opts c pid nid prof hc hpid hpne htext hlink hcreate hme
    simp [LinkedInPlatform.post, LinkedInPlatform.getMe, hc, hpid, hpne, htext, hlink,
      strTruthy, orElseStr, jsTemplate, hcreate, hme]
  · intro st api now c pid lp prof hc hpid hpne hfeed htext hme
    refine ⟨?_, ?_, ?_⟩
    · simp [LinkedInPlatform.getFeed, LinkedInPlatform.getMe, hc, hpid, hpne,
        strTruthy, natOr, natTruthy, jsTemplate, hfeed, hme]
    · simp [LinkedInPlatform.mapLinkedInPostToPost, htext, orElseStr, strTruthy]
    · simp [LinkedInPlatform.mapLinkedInPostToPost]

/-- The post request used by the Instagram round-trip scenario: hello text
plus the required media URL. -/
def igPoHello : PostOptions :=
  { text := some "hello", caption := none, mediaPath := none
    mediaUrls := some ["https://cdn.example/img.png"], linkUrl := none, linkTitle := none }

/-- Witness for C5 at the concrete authenticated adapter states and
echoing vendor oracles. -/
theorem claim_c5_round_trip_witness :
    ((TwitterPlatform.post twStAuthed twApiFix 0 poHello).1
        = .ok (TwitterPlatform.mapTwitterTweetToPost 0 twTweetHello
            (some { users := some [twUserFix], media := none })) ∧
     (TwitterPlatform.mapTwitterTweetToPost 0 twTweetHello
        (some { users := some [twUserFix], media := none })).content = "hello" ∧
     (TwitterPlatform.mapTwitterTweetToPost 0 twTweetHello
        (some { users := some [twUserFix], media := none })).platform = .twitter) ∧
    ((InstagramPlatform.post igStAuthed igApiFix 0 igPoHello).1
        = .ok (InstagramPlatform.mapInstagramMediaToPost igMediaHello
            (InstagramPlatform.mapInstagramUserToUser igUserFix)) ∧
     (InstagramPlatform.mapInstagramMediaToPost igMediaHello
        (InstagramPlatform.mapInstagramUserToUser igUserFix)).content = "hello" ∧
     (InstagramPlatform.mapInstagramMediaToPost igMediaHello
        (InstagramPlatform.mapInstagramUserToUser igUserFix)).platform = .instagram) ∧
    (LinkedInPlatform.post liStAuthed liApiFix 0 poHello).1
      = .ok { id := "urn:li:share:1", platform := .linkedin
              author := LinkedInPlatform.mapLinkedInProfileToUser liProfFix
              content := "hello", timestamp := 0, mediaUrls := none
              likesCount := none, commentsCount := none, sharesCount := none
              url := some ("https://www.linkedin.com/feed/update/" ++ "urn:li:share:1" ++ "/") } ∧
    ((LinkedInPlatform.getFeed liStAuthed liApiFix 0
        { limit := none, maxResults := none, sinceId := none, beforeId := none }).1
      = .ok [LinkedInPlatform.mapLinkedInPostToPost liPostHello
          (LinkedInPlatform.mapLinkedInProfileToUser liProfFix)] ∧
     (LinkedInPlatform.mapLinkedInPostToPost liPostHello
        (LinkedInPlatform.mapLinkedInProfileToUser liProfFix)).content = "hello" ∧
     (LinkedInPlatform.mapLinkedInPostToPost liPostHello
        (LinkedInPlatform.mapLinkedInProfileToUser liProfFix)).platform = .linkedin) :=
  ⟨claim_c5_round_trip.1 twStAuthed twApiFix 0 poHello twClientFix "t1" twTweetHello
      (some { users := some [twUserFix], media := none }) rfl rfl rfl rfl rfl rfl,
   claim_c5_round_trip.2.1 igStAuthed igApiFix 0 igPoHello
      { baseURL := instagramBaseUrl, token := "tok" } "https://cdn.example/img.png" "c1" "m1"
      igMediaHello igUserFix rfl rfl rfl rfl (by decide) rfl rfl rfl rfl rfl,
   claim_c5_round_trip.2.2.1 liStAuthed liApiFix 0 poHello
      { baseURL := linkedinBaseUrl, token := "tok" } "liid" "urn:li:share:1" liProfFix
      rfl rfl (by decide) rfl rfl rfl rfl,
   claim_c5_round_trip.2.2.2 liStAuthed liApiFix 0
      { baseURL := linkedinBaseUrl, token := "tok" } "liid" liPostHello liProfFix
      rfl rfl (by decide) rfl rfl rfl⟩

/-- A thrown createError with a nonempty message and no status code passes
through the final branch of handleError unchanged: same message, no status,
no reset. -/
theorem throwAndHandle_plain (p : Platform) (now : Nat) (msg : String)
    (h : (msg == "") = false) :
    SocialPlatform.throwAndHandle p now msg
      = { message := msg, platform := p, statusCode := none, rateLimitReset := none } := by
  unfold SocialPlatform.throwAndHandle SocialPlatform.handleError RawError.ofPlatformError
    SocialPlatform.createError
  simp [orElseStr, strTruthy, natTruthy, h]

/-- A Twitter oracle whose me endpoint is rate limited. -/
def twApiMe429 : TwitterApi := { twApiFix with me := .error raw429vendor }

/-- C6 counterexample: a reply engagement with absent commentText on the
Twitter adapter does not fail with the validation error — the adapter first
issues the getMe network call, and when that call is rate limited the
classified 429 error surfaces instead of ValidationFailed, so the
commentText precondition is not checked before a network request. -/
theorem claim_c6_counterexample :
    (TwitterPlatform.engage twStAuthed twApiMe429 100
        { postId := "42", action := .reply, commentText := none }).1
      = .error { message := "Rate limit exceeded for twitter. Try again after 900100"
                 platform := .twitter, statusCode := some 429
                 rateLimitReset := some 900100 } ∧
    "Rate limit exceeded for twitter. Try again after 900100"
      ≠ "Comment text is required for replies" := by
  exact ⟨rfl, by decide⟩

/-- C6 (amended): the Instagram and LinkedIn comment and reply branches check
commentText, the Instagram post checks the media requirement and the Twitter
post checks the text requirement eagerly — for every vendor oracle the
operation fails with the validation error without consulting the oracle; the
Twitter engage, however, issues the getMe network request first and
validates commentText only after it succeeds. -/
theorem claim_c6_eager_validation :
    (∀ (st : InstagramState) (api : InstagramApi) (now : Nat) (pid : String)
        (a : EngagementAction) (ct : Option String) (c : AxiosClient),
      st.client = some c →
      (a = .comment ∨ a = .reply) →
      strTruthy ct = false →
      InstagramPlatform.engage st api now { postId := pid, action := a, commentText := ct }
        = (.error { message := "Comment text is required", platform := .instagram
                    statusCode := none, rateLimitReset := none }, st)) ∧
    (∀ (st : LinkedInState) (api : LinkedInApi) (now : Nat) (pid : String)
        (a : EngagementAction) (ct : Option String) (c : AxiosClient) (prid : String),
      st.client = some c →
      st.profileId = some prid →
      prid ≠ "" →
      (a = .comment ∨ a = .reply) →
      strTruthy ct = false →
      LinkedInPlatform.engage st api now { postId := pid, action := a, commentText := ct }
        = (.error { message := "Comment text is required", platform := .linkedin
                    statusCode := none, rateLimitReset := none }, st)) ∧
    (∀ (st : InstagramState) (api : InstagramApi) (now : Nat) (opts : PostOptions)
        (c : AxiosClient),
      st.client = some c →
      strTruthy opts.mediaPath = false →
      strTruthy (firstElem opts.mediaUrls) = false →
      InstagramPlatform.post st api now opts
        = (.error { message := "Instagram requires an image or video URL to post"
                    platform := .instagram, statusCode := none, rateLimitReset := none }, st)) ∧
    (∀ (st : TwitterState) (api : TwitterApi) (now : Nat) (opts : PostOptions)
        (c : TwitterClient),
      st.readWriteClient = some c →
      strTruthy opts.text = false →
      TwitterPlatform.post st api now opts
        = (.error { message := "Tweet text is required", platform := .twitter
                    statusCode := none, rateLimitReset := none }, st)) ∧
    (∀ (st : TwitterState) (api : TwitterApi) (now : Nat) (pid : String)
        (a : EngagementAction) (ct : Option String) (crw cr : TwitterClient) (u : UserV2),
      st.readWriteClient = some crw →
      st.client = some cr →
      api.me = .ok u →
      (a = .comment ∨ a = .reply) →
      strTruthy ct = false →
      TwitterPlatform.engage st api now { postId := pid, action := a, commentText := ct }
        = (.error { message := "Comment text is required for replies", platform := .twitter
                    statusCode := none, rateLimitReset := none }, st)) := by
  refine ⟨?_, ?_, ?_, ?_, ?_⟩
  · intro st api now pid a ct c hc ha hct
    rcases ha with rfl | rfl <;>
      simp [InstagramPlatform.engage, hc, hct, throwAndHandle_plain]
  · intro st api now pid a ct c prid hc hp hpne ha hct
    have hst : strTruthy (some prid) = true := by simp [strTruthy, hpne]
    rcases ha with rfl | rfl <;>
      simp [LinkedInPlatform.engage, hc, hp, hst, hct, throwAndHandle_plain]
  · intro st api now opts c hc hmp hmu
    simp [InstagramPlatform.post, hc, hmp, hmu, throwAndHandle_plain]
  · intro st api now opts c hrw htext
    simp [TwitterPlatform.post, hrw, htext, throwAndHandle_plain]
  · intro st api now pid a ct crw cr u hrw hcl hme ha hct
    rcases ha with rfl | rfl <;>
      simp [TwitterPlatform.engage, TwitterPlatform.getMe, hrw, hcl, hme, hct,
        throwAndHandle_plain]

/-- An empty post request. -/
def poEmpty : PostOptions :=
  { text := none, caption := none, mediaPath := none
    mediaUrls := none, linkUrl := none, linkTitle := none }

/-- Witness for C6 at the concrete authenticated adapter states. -/
theorem claim_c6_eager_validation_witness :
    InstagramPlatform.engage igStAuthed igApiFix 3
        { postId := "42", action := .comment, commentText := none }
      = (.error { message := "Comment text is required", platform := .instagram
                  statusCode := none, rateLimitReset := none }, igStAuthed) ∧
    LinkedInPlatform.engage liStAuthed liApiFix 3
        { postId := "42", action := .comment, commentText := none }
      = (.error { message := "Comment text is required", platform := .linkedin
                  statusCode := none, rateLimitReset := none }, liStAuthed) ∧
    InstagramPlatform.post igStAuthed igApiFix 3 poHello
      = (.error { message := "Instagram requires an image or video URL to post"
                  platform := .instagram, statusCode := none, rateLimitReset := none },
         igStAuthed) ∧
    TwitterPlatform.post twStAuthed twApiFix 3 poEmpty
      = (.error { message := "Tweet text is required", platform := .twitter
                  statusCode := none, rateLimitReset := none }, twStAuthed) ∧
    TwitterPlatform.engage twStAuthed twApiFix 3
        { postId := "42", action := .reply, commentText := none }
      = (.error { message := "Comment text is required for replies", platform := .twitter
                  statusCode := none, rateLimitReset := none }, twStAuthed) :=
  ⟨claim_c6_eager_validation.1 igStAuthed igApiFix 3 "42" .comment none _ rfl
      (Or.inl rfl) rfl,
   claim_c6_eager_validation.2.1 liStAuthed liApiFix 3 "42" .comment none _ "liid" rfl rfl
      (by decide) (Or.inl rfl) rfl,
   claim_c6_eager_validation.2.2.1 igStAuthed igApiFix 3 poHello _ rfl rfl rfl,
   claim_c6_eager_validation.2.2.2.1 twStAuthed twApiFix 3 poEmpty twClientFix rfl rfl,
   claim_c6_eager_validation.2.2.2.2 twStAuthed twApiFix 3 "42" .reply none twClientFix
      twClientFix twUserFix rfl rfl rfl (Or.inr rfl) rfl⟩

/-- C8: calling authenticate() a second time with the unchanged credential
bundle, after a first call that succeeded, succeeds again and leaves the
adapter state exactly as after the first call, for all three adapters. -/
theorem claim_c8_authenticate_idempotent :
    (∀ (st : TwitterState) (api : TwitterApi) (now : Nat),
      (TwitterPlatform.authenticate st api now).1 = .ok () →
      TwitterPlatform.authenticate (TwitterPlatform.authenticate st api now).2 api now
        = (.ok (), (TwitterPlatform.authenticate st api now).2)) ∧
    (∀ (st : InstagramState) (api : InstagramApi) (now : Nat),
      (InstagramPlatform.authenticate st api now).1 = .ok () →
      InstagramPlatform.authenticate (InstagramPlatform.authenticate st api now).2 api now
        = (.ok (), (InstagramPlatform.authenticate st api now).2)) ∧
    (∀ (st : LinkedInState) (api : LinkedInApi) (now : Nat),
      (LinkedInPlatform.authenticate st api now).1 = .ok () →
      LinkedInPlatform.authenticate (LinkedInPlatform.authenticate st api now).2 api now
        = (.ok (), (LinkedInPlatform.authenticate st api now).2)) := by
  refine ⟨?_, ?_, ?_⟩
  · intro st api now h
    obtain ⟨cfg, cl, rwc⟩ := st
    unfold TwitterPlatform.authenticate TwitterPlatform.getMe at h ⊢
    by_cases h1 : (strTruthy cfg.apiKey && strTruthy cfg.apiSecret &&
        strTruthy cfg.accessToken && strTruthy cfg.accessSecret) = true
    · rw [if_pos h1] at h ⊢
      cases hme : api.me with
      | error e => rw [hme] at h; simp at h
      | ok u => rw [hme] at h; simp [h1, hme]
    · rw [if_neg h1] at h ⊢
      by_cases h2 : strTruthy cfg.bearerToken = true
      · rw [if_pos h2] at h ⊢
        cases hme : api.me with
        | error e => rw [hme] at h; simp at h
        | ok u => rw [hme] at h; simp [h1, h2, hme]
      · rw [if_neg h2] at h
        simp at h
  · intro st api now h
    obtain ⟨cfg, cl⟩ := st
    unfold InstagramPlatform.authenticate InstagramPlatform.getMe at h ⊢
    by_cases h1 : (!strTruthy cfg.accessToken || !strTruthy cfg.userId) = true
    · rw [if_pos h1] at h
      simp at h
    · rw [if_neg h1] at h ⊢
      cases hme : api.getUser (jsTemplate cfg.userId) with
      | error e => simp only [hme] at h; simp at h
      | ok u => simp only [hme] at h; simp [h1, hme]
  · intro st api now h
    obtain ⟨cfg, cl, pid⟩ := st
    unfold LinkedInPlatform.authenticate LinkedInPlatform.getMe at h ⊢
    by_cases h1 : (!strTruthy cfg.accessToken) = true
    · rw [if_pos h1] at h
      simp at h
    · rw [if_neg h1] at h ⊢
      cases hme : api.me with
      | error e => rw [hme] at h; simp at h
      | ok u => rw [hme] at h; simp [h1, hme]

/-- Witness for C8: a second authenticate() on each freshly constructed
adapter, after a successful first call against the concrete oracles,
succeeds and leaves the state of the first call unchanged. -/
theorem claim_c8_authenticate_idempotent_witness :
    TwitterPlatform.authenticate
        (TwitterPlatform.authenticate (TwitterState.fresh cfgFull) twApiFix 0).2 twApiFix 0
      = (.ok (), (TwitterPlatform.authenticate (TwitterState.fresh cfgFull) twApiFix 0).2) ∧
    InstagramPlatform.authenticate
        (InstagramPlatform.authenticate (InstagramState.fresh cfgFull) igApiFix 0).2 igApiFix 0
      = (.ok (), (InstagramPlatform.authenticate (InstagramState.fresh cfgFull) igApiFix 0).2) ∧
    LinkedInPlatform.authenticate
        (LinkedInPlatform.authenticate (LinkedInState.fresh cfgFull) liApiFix 0).2 liApiFix 0
      = (.ok (), (LinkedInPlatform.authenticate (LinkedInState.fresh cfgFull) liApiFix 0).2) :=
  ⟨claim_c8_authenticate_idempotent.1 (TwitterState.fresh cfgFull) twApiFix 0 rfl,
   claim_c8_authenticate_idempotent.2.1 (InstagramState.fresh cfgFull) igApiFix 0 rfl,
   claim_c8_authenticate_idempotent.2.2 (LinkedInState.fresh cfgFull) liApiFix 0 rfl⟩

/-- Instagram getMe returns the state unchanged. -/
theorem igGetMe_state (st : InstagramState) (api : InstagramApi) (now : Nat) :
    (InstagramPlatform.getMe st api now).2 = st := by
  unfold InstagramPlatform.getMe
  repeat' first | rfl | split | dsimp only

/-- Instagram getFeed returns the state unchanged. -/
theorem igGetFeed_state (st : InstagramState) (api : InstagramApi) (now : Nat)
    (o : FeedOptions) : (InstagramPlatform.getFeed st api now o).2 = st := by
  unfold InstagramPlatform.getFeed
  repeat' first | rfl | split | dsimp only

/-- Instagram post returns the state unchanged. -/
theorem igPost_state (st : InstagramState) (api : InstagramApi) (now : Nat)
    (o : PostOptions) : (InstagramPlatform.post st api now o).2 = st := by
  unfold InstagramPlatform.post
  repeat' first | rfl | split | dsimp only

/-- Instagram engage returns the state unchanged. -/
theorem igEngage_state (st : InstagramState) (api : InstagramApi) (now : Nat)
    (o : EngagementOptions) : (InstagramPlatform.engage st api now o).2 = st := by
  unfold InstagramPlatform.engage
  repeat' first | rfl | split | dsimp only

/-- Instagram search returns the state unchanged. -/
theorem igSearch_state (st : InstagramState) (api : InstagramApi) (now : Nat)
    (o : SearchOptions) : (InstagramPlatform.search st api now o).2 = st := by
  unfold InstagramPlatform.search
  repeat' first | rfl | split | dsimp only

/-- LinkedIn getMe returns the state unchanged. -/
theorem liGetMe_state (st : LinkedInState) (api : LinkedInApi) (now : Nat) :
    (LinkedInPlatform.getMe st api now).2 = st := by
  unfold LinkedInPlatform.getMe
  repeat' first | rfl | split | dsimp only

/-- LinkedIn getFeed returns the state unchanged. -/
theorem liGetFeed_state (st : LinkedInState) (api : LinkedInApi) (now : Nat)
    (o : FeedOptions) : (LinkedInPlatform.getFeed st api now o).2 = st := by
  unfold LinkedInPlatform.getFeed
  repeat' first | rfl | split | dsimp only

/-- LinkedIn post returns the state unchanged. -/
theorem liPost_state (st : LinkedInState) (api : LinkedInApi) (now : Nat)
    (o : PostOptions) : (LinkedInPlatform.post st api now o).2 = st := by
  unfold LinkedInPlatform.post
  repeat' first | rfl | split | dsimp only

/-- LinkedIn engage returns the state unchanged. -/
theorem liEngage_state (st : LinkedInState) (api : LinkedInApi) (now : Nat)
    (o : EngagementOptions) : (LinkedInPlatform.engage st api now o).2 = st := by
  unfold LinkedInPlatform.engage
  repeat' first | rfl | split | dsimp only

/-- LinkedIn search returns the state unchanged. -/
theorem liSearch_state (st : LinkedInState) (api : LinkedInApi) (now : Nat)
    (o : SearchOptions) : (LinkedInPlatform.search st api now o).2 = st := by
  unfold LinkedInPlatform.search
  repeat' first | rfl | split | dsimp only

/-- Twitter getMe returns the state unchanged. -/
theorem twGetMe_state (st : TwitterState) (api : TwitterApi) (now : Nat) :
    (TwitterPlatform.getMe st api now).2 = st := by
  unfold TwitterPlatform.getMe
  repeat' first | rfl | split | dsimp only

/-- Twitter getFeed returns the state unchanged. -/
theorem twGetFeed_state (st : TwitterState) (api : TwitterApi) (now : Nat)
    (o : FeedOptions) : (TwitterPlatform.getFeed st api now o).2 = st := by
  unfold TwitterPlatform.getFeed
  repeat' first | rfl | split | dsimp only

/-- Twitter post returns the state unchanged. -/
theorem twPost_state (st : TwitterState) (api : TwitterApi) (now : Nat)
    (o : PostOptions) : (TwitterPlatform.post st api now o).2 = st := by
  unfold TwitterPlatform.post
  repeat' first | rfl | split | dsimp only

/-- Twitter engage returns the state unchanged. -/
theorem twEngage_state (st : TwitterState) (api : TwitterApi) (now : Nat)
    (o : EngagementOptions) : (TwitterPlatform.engage st api now o).2 = st := by
  unfold TwitterPlatform.engage
  repeat' first | rfl | split | dsimp only

/-- Twitter search returns the state unchanged. -/
theorem twSearch_state (st : TwitterState) (api : TwitterApi) (now : Nat)
    (o : SearchOptions) : (TwitterPlatform.search st api now o).2 = st := by
  unfold TwitterPlatform.search
  repeat' first | rfl | split | dsimp only

/-- Twitter authenticate keeps the config and replaces the clients only with
values freshly constructed from that config. -/
theorem twAuth_state (st : TwitterState) (api : TwitterApi) (now : Nat) :
    (TwitterPlatform.authenticate st api now).2.config = st.config ∧
    (TwitterPlatform.authenticate st api now).2.client =
      (if (strTruthy st.config.apiKey && strTruthy st.config.apiSecret &&
           strTruthy st.config.accessToken && strTruthy st.config.accessSecret) = true then
        some (TwitterClient.oauth1 (st.config.apiKey.getD "") (st.config.apiSecret.getD "")
          (st.config.accessToken.getD "") (st.config.accessSecret.getD ""))
      else if strTruthy st.config.bearerToken = true then
        some (TwitterClient.bearer (st.config.bearerToken.getD ""))
      else st.client) ∧
    (TwitterPlatform.authenticate st api now).2.readWriteClient =
      (if (strTruthy st.config.apiKey && strTruthy st.config.apiSecret &&
           strTruthy st.config.accessToken && strTruthy st.config.accessSecret) = true then
        some (TwitterClient.oauth1 (st.config.apiKey.getD "") (st.config.apiSecret.getD "")
          (st.config.accessToken.getD "") (st.config.accessSecret.getD ""))
      else st.readWriteClient) := by
  unfold TwitterPlatform.authenticate
  by_cases h1 : (strTruthy st.config.apiKey && strTruthy st.config.apiSecret &&
      strTruthy st.config.accessToken && strTruthy st.config.accessSecret) = true
  · rw [if_pos h1, if_pos h1, if_pos h1]
    refine ⟨?_, ?_, ?_⟩ <;> (dsimp only; split <;> rfl)
  · rw [if_neg h1, if_neg h1, if_neg h1]
    by_cases h2 : strTruthy st.config.bearerToken = true
    · rw [if_pos h2, if_pos h2]
      refine ⟨?_, ?_, ?_⟩ <;> (dsimp only; split <;> rfl)
    · rw [if_neg h2, if_neg h2]
      exact ⟨rfl, rfl, rfl⟩

/-- Instagram authenticate keeps the config and replaces the client only with
a value freshly constructed from that config. -/
theorem igAuth_state (st : InstagramState) (api : InstagramApi) (now : Nat) :
    (InstagramPlatform.authenticate st api now).2.config = st.config ∧
    (InstagramPlatform.authenticate st api now).2.client =
      (if (!strTruthy st.config.accessToken || !strTruthy st.config.userId) = true then
        st.client
      else some { baseURL := instagramBaseUrl, token := st.config.accessToken.getD "" }) := by
  unfold InstagramPlatform.authenticate
  by_cases h1 : (!strTruthy st.config.accessToken || !strTruthy st.config.userId) = true
  · rw [if_pos h1, if_pos h1]
    exact ⟨rfl, rfl⟩
  · rw [if_neg h1, if_neg h1]
    refine ⟨?_, ?_⟩ <;> (dsimp only; split <;> rfl)

/-- LinkedIn authenticate keeps the config and replaces the client only with
a value freshly constructed from that config. -/
theorem liAuth_state (st : LinkedInState) (api : LinkedInApi) (now : Nat) :
    (LinkedInPlatform.authenticate st api now).2.config = st.config ∧
    (LinkedInPlatform.authenticate st api now).2.client =
      (if (!strTruthy st.config.accessToken) = true then st.client
       else some { baseURL := linkedinBaseUrl, token := st.config.accessToken.getD "" }) := by
  unfold LinkedInPlatform.authenticate
  by_cases h1 : (!strTruthy st.config.accessToken) = true
  · rw [if_pos h1, if_pos h1]
    exact ⟨rfl, rfl⟩
  · rw [if_neg h1, if_neg h1]
    refine ⟨?_, ?_⟩ <;> (dsimp only; split <;> rfl)

/-- C9: for every adapter, no operation mutates the config received at
construction — getMe, getFeed, post, engage and search return the whole
adapter state unchanged, and authenticate keeps the config field identical
while installing a vendor client constructed afresh from that unchanged
config (never patching the stored configuration or the old client). -/
theorem claim_c9_config_immutable :
    (∀ (st : InstagramState) (api : InstagramApi) (now : Nat) (fo : FeedOptions)
        (po : PostOptions) (eo : EngagementOptions) (so : SearchOptions),
      (InstagramPlatform.getMe st api now).2 = st ∧
      (InstagramPlatform.getFeed st api now fo).2 = st ∧
      (InstagramPlatform.post st api now po).2 = st ∧
      (InstagramPlatform.engage st api now eo).2 = st ∧
      (InstagramPlatform.search st api now so).2 = st ∧
      (InstagramPlatform.authenticate st api now).2.config = st.config ∧
      (InstagramPlatform.authenticate st api now).2.client =
        (if (!strTruthy st.config.accessToken || !strTruthy st.config.userId) = true then
          st.client
        else some { baseURL := instagramBaseUrl, token := st.config.accessToken.getD "" })) ∧
    (∀ (st : LinkedInState) (api : LinkedInApi) (now : Nat) (fo : FeedOptions)
        (po : PostOptions) (eo : EngagementOptions) (so : SearchOptions),
      (LinkedInPlatform.getMe st api now).2 = st ∧
      (LinkedInPlatform.getFeed st api now fo).2 = st ∧
      (LinkedInPlatform.post st api now po).2 = st ∧
      (LinkedInPlatform.engage st api now eo).2 = st ∧
      (LinkedInPlatform.search st api now so).2 = st ∧
      (LinkedInPlatform.authenticate st api now).2.config = st.config ∧
      (LinkedInPlatform.authenticate st api now).2.client =
        (if (!strTruthy st.config.accessToken) = true then st.client
         else some { baseURL := linkedinBaseUrl, token := st.config.accessToken.getD "" })) ∧
    (∀ (st : TwitterState) (api : TwitterApi) (now : Nat) (fo : FeedOptions)
        (po : PostOptions) (eo : EngagementOptions) (so : SearchOptions),
      (TwitterPlatform.getMe st api now).2 = st ∧
      (TwitterPlatform.getFeed st api now fo).2 = st ∧
      (TwitterPlatform.post st api now po).2 = st ∧
      (TwitterPlatform.engage st api now eo).2 = st ∧
      (TwitterPlatform.search st api now so).2 = st ∧
      (TwitterPlatform.authenticate st api now).2.config = st.config ∧
      (TwitterPlatform.authenticate st api now).2.client =
        (if (strTruthy st.config.apiKey && strTruthy st.config.apiSecret &&
             strTruthy st.config.accessToken && strTruthy st.config.accessSecret) = true then
          some (TwitterClient.oauth1 (st.config.apiKey.getD "") (st.config.apiSecret.getD "")
            (st.config.accessToken.getD "") (st.config.accessSecret.getD ""))
        else if strTruthy st.config.bearerToken = true then
          some (TwitterClient.bearer (st.config.bearerToken.getD ""))
        else st.client) ∧
      (TwitterPlatform.authenticate st api now).2.readWriteClient =
        (if (strTruthy st.config.apiKey && strTruthy st.config.apiSecret &&
             strTruthy st.config.accessToken && strTruthy st.config.accessSecret) = true then
          some (TwitterClient.oauth1 (st.config.apiKey.getD "") (st.config.apiSecret.getD "")
            (st.config.accessToken.getD "") (st.config.accessSecret.getD ""))
        else st.readWriteClient)) := by
  refine ⟨?_, ?_, ?_⟩
  · intro st api now fo po eo so
    exact ⟨igGetMe_state st api now, igGetFeed_state st api now fo, igPost_state st api now po,
      igEngage_state st api now eo, igSearch_state st api now so,
      (igAuth_state st api now).1, (igAuth_state st api now).2⟩
  · intro st api now fo po eo so
    exact ⟨liGetMe_state st api now, liGetFeed_state st api now fo, liPost_state st api now po,
      liEngage_state st api now eo, liSearch_state st api now so,
      (liAuth_state st api now).1, (liAuth_state st api now).2⟩
  · intro st api now fo po eo so
    exact ⟨twGetMe_state st api now, twGetFeed_state st api now fo, twPost_state st api now po,
      twEngage_state st api now eo, twSearch_state st api now so,
      (twAuth_state st api now).1, (twAuth_state st api now).2.1,
      (twAuth_state st api now).2.2⟩

/-- C10 counterexample: a tweet whose author_id is present but the empty
string maps to the placeholder id unknown, not to its author_id — the
`tweet.author_id || 'unknown'` fallback treats the empty string as falsy, so
the id does not always equal a present author_id. -/
theorem claim_c10_counterexample :
    ({ id := "t0", text := "x", author_id := some "", created_at := none
       public_metrics := none, attachments := none : TweetV2 }.author_id = some "") ∧
    (TwitterPlatform.mapTwitterTweetToPost 0
        { id := "t0", text := "x", author_id := some "", created_at := none
          public_metrics := none, attachments := none } none).author.id = "unknown" ∧
    "unknown" ≠ "" := by
  exact ⟨rfl, rfl, by decide⟩

/-- C10 (amended): whenever the author lookup over the response includes
fails (the includes are absent, carry no users, or no user matches the
tweet's author_id), mapping the tweet to a unified Post is still total and
yields the placeholder author — username unknown, displayName Unknown User,
id equal to the tweet's author_id when that is a nonempty string and unknown
when it is absent or empty (JS falsiness) — and the feed operation itself
succeeds, mapping every tweet of the page. -/
theorem claim_c10_author_fallback :
    (∀ (now : Nat) (tweet : TweetV2) (includes : Option IncludesV2),
      authorFromIncludes tweet.author_id includes = none →
      (TwitterPlatform.mapTwitterTweetToPost now tweet includes).author
        = fallbackAuthor tweet.author_id ∧
      (fallbackAuthor tweet.author_id).username = "unknown" ∧
      (fallbackAuthor tweet.author_id).displayName = "Unknown User" ∧
      (tweet.author_id = none → (fallbackAuthor tweet.author_id).id = "unknown") ∧
      (tweet.author_id = some "" → (fallbackAuthor tweet.author_id).id = "unknown") ∧
      (∀ aid : String, tweet.author_id = some aid → aid ≠ "" →
        (fallbackAuthor tweet.author_id).id = aid)) ∧
    (∀ (st : TwitterState) (api : TwitterApi) (now : Nat) (o : FeedOptions)
        (c : TwitterClient) (u : UserV2) (page : TimelinePage),
      st.client = some c →
      api.me = .ok u →
      api.homeTimeline (natOr o.limit 20) = .ok page →
      (TwitterPlatform.getFeed st api now o).1
        = .ok ((page.data.getD []).map fun t =>
            TwitterPlatform.mapTwitterTweetToPost now t page.includes)) := by
  refine ⟨?_, ?_⟩
  · intro now tweet includes h
    refine ⟨?_, rfl, rfl, ?_, ?_, ?_⟩
    · simp [TwitterPlatform.mapTwitterTweetToPost, h]
    · intro ha
      simp [fallbackAuthor, ha, orElseStr, strTruthy]
    · intro ha
      simp [fallbackAuthor, ha, orElseStr, strTruthy]
    · intro aid ha hne
      simp [fallbackAuthor, ha, orElseStr, strTruthy, hne]
  · intro st api now o c u page hc hme hht
    simp [TwitterPlatform.getFeed, TwitterPlatform.getMe, hc, hme, hht]

/-- A tweet whose author is not among the response includes. -/
def twTweetOrphan : TweetV2 :=
  { id := "t9"
    text := "orphan"
    author_id := some "a9"
    created_at := none
    public_metrics := none
    attachments := none }

/-- Witness for C10 at a concrete tweet whose author_id a9 matches no user
in the includes, and at the concrete feed oracle. -/
theorem claim_c10_author_fallback_witness :
    ((TwitterPlatform.mapTwitterTweetToPost 0 twTweetOrphan
        (some { users := some [twUserFix], media := none })).author
      = fallbackAuthor twTweetOrphan.author_id ∧
     (fallbackAuthor twTweetOrphan.author_id).username = "unknown" ∧
     (fallbackAuthor twTweetOrphan.author_id).displayName = "Unknown User" ∧
     (twTweetOrphan.author_id = none → (fallbackAuthor twTweetOrphan.author_id).id = "unknown") ∧
     (twTweetOrphan.author_id = some "" → (fallbackAuthor twTweetOrphan.author_id).id = "unknown") ∧
     (∀ aid : String, twTweetOrphan.author_id = some aid → aid ≠ "" →
       (fallbackAuthor twTweetOrphan.author_id).id = aid)) ∧
    (TwitterPlatform.getFeed twStAuthed twApiFix 0
        { limit := none, maxResults := none, sinceId := none, beforeId := none }).1
      = .ok (([twTweetHello] : List TweetV2).map fun t =>
          TwitterPlatform.mapTwitterTweetToPost 0 t
            (some { users := some [twUserFix], media := none })) :=
  ⟨claim_c10_author_fallback.1 0 twTweetOrphan
      (some { users := some [twUserFix], media := none }) (by decide),
   claim_c10_author_fallback.2 twStAuthed twApiFix 0
      { limit := none, maxResults := none, sinceId := none, beforeId := none }
      twClientFix twUserFix
      { data := some [twTweetHello], includes := some { users := some [twUserFix], media := none } }
      rfl rfl rfl⟩
